import Mathlib

/-!
Verification of the Lexicognize backend (FastAPI + SQLAlchemy web platform
for fine-tuning legal-text models) against its natural-language
specification.

The relational rows, CRUD helpers (`backend/app/auth/crud.py`), the token
security layer (`backend/app/auth/security.py`), the auth routes
(`backend/app/auth/routes.py`), the training routes
(`backend/app/routes/training.py`), the API-key dependency
(`backend/app/middleware/api_key_auth.py`) and the route/error surface of
the served app (`backend/app/main.py`) are shallowly embedded below.
The database session is modelled as an explicit record of row lists;
`datetime.utcnow()` call sites become explicit `Nat` timestamp parameters;
random/crypto material (UUIDs, JWTs, password hashes, generated tokens) is
passed in as parameters or environment functions; Python exceptions become
`Except` / explicit outcome types.
-/

namespace Lexicognize

/-- `UserRole` enum from `backend/app/auth/models.py`. -/
inductive UserRole where
  | ADMIN
  | USER
  | RESEARCHER
  | LEGAL_PROFESSIONAL
deriving Repr, DecidableEq

/-- `UserStatus` enum from `backend/app/auth/models.py`. -/
inductive UserStatus where
  | ACTIVE
  | INACTIVE
  | SUSPENDED
  | PENDING
deriving Repr, DecidableEq

/-- Opaque JSON blobs (metrics dicts, preferences, hyperparameter configs)
are modelled as association lists of strings; the code only stores and
forwards them. -/
abbrev JsonBlob := List (String × String)

/-- A row of the `users` table (`backend/app/auth/models.py`, class `User`).
Only the columns read or written by the embedded code paths are carried. -/
structure UserRow where
  id : Nat
  email : String
  username : String
  fullName : Option String
  hashedPassword : String
  role : UserRole
  status : UserStatus
  preferences : JsonBlob
  createdAt : Nat
  updatedAt : Option Nat
  lastLogin : Option Nat
  emailVerifiedAt : Option Nat
deriving Repr, DecidableEq

/-- A row of the `refresh_tokens` table (class `RefreshToken`). -/
structure RefreshTokenRow where
  id : Nat
  userId : Nat
  token : String
  expiresAt : Nat
  isRevoked : Bool
  createdAt : Nat
deriving Repr, DecidableEq

/-- A row of the `api_keys` table (class `ApiKey`). -/
structure ApiKeyRow where
  id : Nat
  userId : Nat
  name : String
  key : String
  secret : String
  scopes : List String
  rateLimit : Nat
  isActive : Bool
  lastUsed : Option Nat
  expiresAt : Option Nat
  createdAt : Nat
deriving Repr, DecidableEq

/-- A row of the `email_verification_tokens` table. -/
structure EmailVerificationTokenRow where
  id : Nat
  userId : Nat
  token : String
  expiresAt : Nat
  createdAt : Nat
deriving Repr, DecidableEq

/-- A row of the `training_jobs` table (class `TrainingJob`). -/
structure TrainingJobRow where
  id : Nat
  userId : Nat
  jobId : String
  name : String
  description : Option String
  modelType : String
  task : String
  datasetId : Nat
  config : JsonBlob
  status : String
  progress : Nat
  errorMessage : Option String
  metrics : Option JsonBlob
  modelPath : Option String
  createdAt : Nat
  startedAt : Option Nat
  completedAt : Option Nat
  updatedAt : Option Nat
deriving Repr, DecidableEq

/-- A row of the `user_datasets` table (class `UserDataset`); only the
columns the training routes touch are carried. -/
structure UserDatasetRow where
  id : Nat
  userId : Nat
  name : String
  filePath : String
deriving Repr, DecidableEq

/-- Metadata blob written into `user_models.metadata` by
`run_training_task`. The learning rate is carried as its opaque literal
(the code never computes with it). -/
structure ModelMeta where
  epochs : Nat
  batchSize : Nat
  learningRate : String
  metrics : JsonBlob
deriving Repr, DecidableEq

/-- A row of the `user_models` table (class `UserModel`). -/
structure UserModelRow where
  id : Nat
  userId : Nat
  name : String
  description : Option String
  modelType : String
  task : String
  modelPath : String
  trainingJobId : Nat
  datasetId : Nat
  metadataInfo : ModelMeta
deriving Repr, DecidableEq

/-- The database state: one list per table, in insertion order.
`query(...).first()` becomes `List.find?`. -/
structure DB where
  users : List UserRow
  refreshTokens : List RefreshTokenRow
  apiKeys : List ApiKeyRow
  emailVerificationTokens : List EmailVerificationTokenRow
  trainingJobs : List TrainingJobRow
  userDatasets : List UserDatasetRow
  userModels : List UserModelRow
deriving Repr, DecidableEq

/-- Autoincrement primary key: one more than the largest id in use. -/
def nextId (ids : List Nat) : Nat :=
  ids.foldr (fun a b => max a b) 0 + 1

/-! ## CRUD operations, from `backend/app/auth/crud.py` -/

/-- `crud.get_user_by_id`. -/
def get_user_by_id (db : DB) (userId : Nat) : Option UserRow :=
  db.users.find? (fun u => u.id == userId)

/-- `crud.get_user_by_email`. -/
def get_user_by_email (db : DB) (email : String) : Option UserRow :=
  db.users.find? (fun u => u.email == email)

/-- `crud.get_user_by_username`. -/
def get_user_by_username (db : DB) (username : String) : Option UserRow :=
  db.users.find? (fun u => u.username == username)

/-- `crud.get_user_by_username_or_email`. -/
def get_user_by_username_or_email (db : DB) (usernameOrEmail : String) :
    Option UserRow :=
  db.users.find? (fun u => u.username == usernameOrEmail || u.email == usernameOrEmail)

/-- `schemas.UserCreate` payload for registration. -/
structure UserCreate where
  email : String
  username : String
  fullName : Option String
  password : String
deriving Repr, DecidableEq

/-- Default `preferences` JSON installed by `crud.create_user`. -/
def defaultPreferences : JsonBlob :=
  [("language", "en"), ("theme", "light"),
   ("notifications", "true"), ("default_model", "bart")]

/-- `crud.create_user`: rejects a duplicate email, then a duplicate
username, with `ValueError` (modelled as `Except.error` carrying the
message) before any insert; otherwise inserts an ACTIVE user row.
`hash` stands for `get_password_hash`. -/
def create_user (db : DB) (now : Nat) (hash : String → String)
    (u : UserCreate) : Except String (UserRow × DB) :=
  match get_user_by_email db u.email with
  | some _ => Except.error "Email already registered"
  | none =>
    match get_user_by_username db u.username with
    | some _ => Except.error "Username already taken"
    | none =>
      let row : UserRow :=
        { id := nextId (db.users.map (fun x => x.id))
          email := u.email
          username := u.username
          fullName := u.fullName
          hashedPassword := hash u.password
          role := UserRole.USER
          status := UserStatus.ACTIVE
          preferences := defaultPreferences
          createdAt := now
          updatedAt := none
          lastLogin := none
          emailVerifiedAt := none }
      Except.ok (row, { db with users := db.users ++ [row] })

/-- Row update applied by `crud.delete_user` to the matching user. -/
def softDeleteUpdate (now : Nat) (userId : Nat) (u : UserRow) : UserRow :=
  if u.id == userId then
    { u with status := UserStatus.INACTIVE, updatedAt := some now }
  else u

/-- `crud.delete_user`: soft delete — sets `status` to INACTIVE and
`updated_at`, keeps the row; returns `False` when the id is absent. -/
def delete_user (db : DB) (now : Nat) (userId : Nat) : Bool × DB :=
  match get_user_by_id db userId with
  | none => (false, db)
  | some _ =>
    (true, { db with users := db.users.map (softDeleteUpdate now userId) })

/-- `crud.update_user_last_login`. -/
def update_user_last_login (db : DB) (now : Nat) (userId : Nat) : DB :=
  match get_user_by_id db userId with
  | none => db
  | some _ =>
    { db with users := db.users.map (fun u =>
        if u.id == userId then { u with lastLogin := some now } else u) }

/-- `crud.change_user_password`. -/
def change_user_password (db : DB) (now : Nat) (hash : String → String)
    (userId : Nat) (newPassword : String) : Bool × DB :=
  match get_user_by_id db userId with
  | none => (false, db)
  | some _ =>
    (true, { db with users := db.users.map (fun u =>
        if u.id == userId then
          { u with hashedPassword := hash newPassword, updatedAt := some now }
        else u) })

/-- `crud.verify_user_password`; `verify` stands for `verify_password`. -/
def verify_user_password (db : DB) (verify : String → String → Bool)
    (userId : Nat) (password : String) : Bool :=
  match get_user_by_id db userId with
  | none => false
  | some u => verify password u.hashedPassword

/-- `crud.get_refresh_token`. -/
def get_refresh_token (db : DB) (token : String) : Option RefreshTokenRow :=
  db.refreshTokens.find? (fun r => r.token == token)

/-- `crud.create_refresh_token`: inserts a fresh, unrevoked row. -/
def create_refresh_token (db : DB) (now : Nat) (userId : Nat)
    (token : String) (expiresAt : Nat) : RefreshTokenRow × DB :=
  let row : RefreshTokenRow :=
    { id := nextId (db.refreshTokens.map (fun x => x.id))
      userId := userId
      token := token
      expiresAt := expiresAt
      isRevoked := false
      createdAt := now }
  (row, { db with refreshTokens := db.refreshTokens ++ [row] })

/-- Row update applied when revoking the refresh token with this string. -/
def setRevokedIfToken (token : String) (r : RefreshTokenRow) : RefreshTokenRow :=
  if r.token == token then { r with isRevoked := true } else r

/-- `crud.revoke_refresh_token` (also `security.revoke_refresh_token`,
which inlines the same logic): look up by token string, set
`is_revoked = True`; `False` when absent. -/
def revoke_refresh_token (db : DB) (token : String) : Bool × DB :=
  match get_refresh_token db token with
  | none => (false, db)
  | some _ =>
    (true, { db with refreshTokens := db.refreshTokens.map (setRevokedIfToken token) })

/-- Row update applied when revoking all of a user's refresh tokens. -/
def setRevokedIfUser (userId : Nat) (r : RefreshTokenRow) : RefreshTokenRow :=
  if r.userId == userId then { r with isRevoked := true } else r

/-- `crud.revoke_all_user_refresh_tokens`. -/
def revoke_all_user_refresh_tokens (db : DB) (userId : Nat) : Bool × DB :=
  (true, { db with refreshTokens := db.refreshTokens.map (setRevokedIfUser userId) })

/-- `crud.create_email_verification_token`: deletes existing rows for the
user, inserts a new one expiring 48 hours out. The random token string is
a parameter. -/
def create_email_verification_token (db : DB) (now : Nat) (userId : Nat)
    (token : String) : EmailVerificationTokenRow × DB :=
  let kept := db.emailVerificationTokens.filter (fun t => t.userId != userId)
  let row : EmailVerificationTokenRow :=
    { id := nextId (db.emailVerificationTokens.map (fun x => x.id))
      userId := userId
      token := token
      expiresAt := now + 48 * 3600
      createdAt := now }
  (row, { db with emailVerificationTokens := kept ++ [row] })

/-- `crud.get_api_key_by_key`: filters on the key string AND
`is_active == True`. -/
def get_api_key_by_key (db : DB) (key : String) : Option ApiKeyRow :=
  db.apiKeys.find? (fun a => a.key == key && a.isActive)

/-- `crud.create_api_key`; the random key and secret are parameters. -/
def create_api_key (db : DB) (now : Nat) (userId : Nat)
    (name key secret : String) (scopes : List String) (rateLimit : Nat) :
    ApiKeyRow × DB :=
  let row : ApiKeyRow :=
    { id := nextId (db.apiKeys.map (fun x => x.id))
      userId := userId
      name := name
      key := key
      secret := secret
      scopes := scopes
      rateLimit := rateLimit
      isActive := true
      lastUsed := none
      expiresAt := none
      createdAt := now }
  (row, { db with apiKeys := db.apiKeys ++ [row] })

/-- `crud.revoke_api_key`: deactivates the key owned by the user. -/
def revoke_api_key (db : DB) (apiKeyId : Nat) (userId : Nat) : Bool × DB :=
  match db.apiKeys.find? (fun a => a.id == apiKeyId && a.userId == userId) with
  | none => (false, db)
  | some _ =>
    (true, { db with apiKeys := db.apiKeys.map (fun a =>
        if a.id == apiKeyId && a.userId == userId then
          { a with isActive := false }
        else a) })

/-- `crud.update_api_key_last_used`. -/
def update_api_key_last_used (db : DB) (now : Nat) (apiKeyId : Nat) : DB :=
  match db.apiKeys.find? (fun a => a.id == apiKeyId) with
  | none => db
  | some _ =>
    { db with apiKeys := db.apiKeys.map (fun a =>
        if a.id == apiKeyId then { a with lastUsed := some now } else a) }

/-! ## Security layer, from `backend/app/auth/security.py`

JWT encoding/decoding and password hashing are cryptographic library
calls; they enter the model as an environment of functions.  `verifyRefresh`
stands for `verify_token(token, "refresh")` composed with the
`payload.get("user_id")` extraction (`none` covers an invalid/expired JWT,
a wrong token type, and a missing user_id claim alike). -/

/-- Environment of cryptographic/random primitives used by the auth code. -/
structure AuthEnv where
  verifyRefresh : String → Option Nat
  mkAccessToken : Nat → String
  mkRefreshToken : Nat → String
  verifyPassword : String → String → Bool
  hashPassword : String → String
  refreshExpireDays : Nat
  accessExpireMinutes : Nat

/-- `security.get_current_user_from_refresh_token`: decode the JWT, then
require the stored token row to exist and not be revoked, then require the
user to exist and be ACTIVE. -/
def get_current_user_from_refresh_token (env : AuthEnv) (db : DB)
    (token : String) : Option UserRow :=
  match env.verifyRefresh token with
  | none => none
  | some userId =>
    match get_refresh_token db token with
    | none => none
    | some stored =>
      if stored.isRevoked then none
      else
        match get_user_by_id db userId with
        | none => none
        | some user =>
          if user.status = UserStatus.ACTIVE then some user else none

/-- Token pair returned by `security.create_tokens_for_user`. -/
structure TokenPair where
  accessToken : String
  refreshToken : String
  tokenType : String
  expiresIn : Nat
deriving Repr, DecidableEq

/-- `security.create_tokens_for_user`: mint an access and a refresh JWT
for the user and persist the refresh token row. -/
def create_tokens_for_user (env : AuthEnv) (db : DB) (now : Nat)
    (user : UserRow) : TokenPair × DB :=
  let access := env.mkAccessToken user.id
  let refresh := env.mkRefreshToken user.id
  let expiresAt := now + env.refreshExpireDays * 86400
  let db1 := (create_refresh_token db now user.id refresh expiresAt).2
  ({ accessToken := access
     refreshToken := refresh
     tokenType := "bearer"
     expiresIn := env.accessExpireMinutes * 60 }, db1)

/-! ## Auth routes, from `backend/app/auth/routes.py` -/

/-- Outcome of a route handler: a value, or an `HTTPException` with a
status code and a `detail` message. -/
inductive RouteResult (α : Type) where
  | ok (value : α)
  | error (statusCode : Nat) (detail : String)
deriving Repr, DecidableEq

/-- `POST /api/auth/register`: `create_user`, then an email verification
token; `ValueError` surfaces as HTTP 400 with the error's message.
`vtok` is the random verification token string. -/
def register (env : AuthEnv) (db : DB) (now : Nat) (vtok : String)
    (u : UserCreate) : RouteResult UserRow × DB :=
  match create_user db now env.hashPassword u with
  | Except.error msg => (RouteResult.error 400 msg, db)
  | Except.ok (user, db1) =>
    let db2 := (create_email_verification_token db1 now user.id vtok).2
    (RouteResult.ok user, db2)

/-- `POST /api/auth/login`: credentials check, status check, last-login
update, token issuance. -/
def login (env : AuthEnv) (db : DB) (now : Nat)
    (usernameOrEmail password : String) : RouteResult TokenPair × DB :=
  match get_user_by_username_or_email db usernameOrEmail with
  | none => (RouteResult.error 401 "Invalid credentials", db)
  | some user =>
    if ¬ env.verifyPassword password user.hashedPassword then
      (RouteResult.error 401 "Invalid credentials", db)
    else if user.status ≠ UserStatus.ACTIVE then
      (RouteResult.error 403 "Account is not active", db)
    else
      let db1 := update_user_last_login db now user.id
      (RouteResult.ok (create_tokens_for_user env db1 now user).1,
       (create_tokens_for_user env db1 now user).2)

/-- `POST /api/auth/refresh`: validate the presented refresh token, revoke
it, and mint a fresh token pair. -/
def refresh_route (env : AuthEnv) (db : DB) (now : Nat) (token : String) :
    RouteResult TokenPair × DB :=
  match get_current_user_from_refresh_token env db token with
  | none => (RouteResult.error 401 "Invalid refresh token", db)
  | some user =>
    let db1 := (revoke_refresh_token db token).2
    (RouteResult.ok (create_tokens_for_user env db1 now user).1,
     (create_tokens_for_user env db1 now user).2)

/-- `POST /api/auth/logout`: revoke the given refresh token; 400 when the
revocation reports failure (token string unknown). -/
def logout (db : DB) (token : String) : RouteResult String × DB :=
  if (revoke_refresh_token db token).1 then
    (RouteResult.ok "Successfully logged out",
     (revoke_refresh_token db token).2)
  else
    (RouteResult.error 400 "Invalid refresh token",
     (revoke_refresh_token db token).2)

/-- `POST /api/auth/logout-all` for the authenticated user. -/
def logout_all (db : DB) (userId : Nat) : RouteResult String × DB :=
  (RouteResult.ok "Successfully logged out from all devices",
   (revoke_all_user_refresh_tokens db userId).2)

/-- `POST /api/auth/change-password` for the authenticated user: verify
the current password, store the new hash, revoke all refresh tokens. -/
def change_password_route (env : AuthEnv) (db : DB) (now : Nat)
    (userId : Nat) (currentPassword newPassword : String) :
    RouteResult String × DB :=
  if ¬ verify_user_password db env.verifyPassword userId currentPassword then
    (RouteResult.error 400 "Current password is incorrect", db)
  else if (change_user_password db now env.hashPassword userId newPassword).1 then
    (RouteResult.ok "Password changed successfully",
     (revoke_all_user_refresh_tokens
       (change_user_password db now env.hashPassword userId newPassword).2
       userId).2)
  else
    (RouteResult.error 500 "Failed to change password",
     (change_user_password db now env.hashPassword userId newPassword).2)

/-! ## Training-job CRUD

`backend/app/routes/training.py` calls `auth_crud.get_user_dataset`,
`auth_crud.create_training_job`, `auth_crud.get_training_job`,
`auth_crud.get_training_job_by_id` and `auth_crud.create_user_model`, but
`backend/app/auth/crud.py` defines none of them; they are part of this
repository that the source tree does not carry.  They are modelled from
the spec below, following the usual shape of the other CRUD helpers in
`crud.py` and the spec's lifecycle description (job creation →
status/metrics persistence → model registration). -/

/-- Modelled from the spec: `auth_crud.get_user_dataset(db, dataset_id,
user_id)` is called by `start_training` but absent from the source; per
the CRUD conventions of `crud.py` it returns the user's dataset row by
id, or `None`. -/
def get_user_dataset (db : DB) (datasetId userId : Nat) :
    Option UserDatasetRow :=
  db.userDatasets.find? (fun d => d.id == datasetId && d.userId == userId)

/-- Field payload handed to `create_training_job` by `start_training`. -/
structure TrainingJobCreate where
  userId : Nat
  jobId : String
  name : String
  description : Option String
  modelType : String
  task : String
  datasetId : Nat
  config : JsonBlob
  status : String
deriving Repr, DecidableEq

/-- Modelled from the spec: `auth_crud.create_training_job(db, data)` is
called by `start_training` but absent from the source; per the spec's
job-creation step it inserts a `training_jobs` row with the supplied
fields and the schema defaults (progress 0, no results yet). -/
def create_training_job (db : DB) (now : Nat) (data : TrainingJobCreate) :
    TrainingJobRow × DB :=
  let row : TrainingJobRow :=
    { id := nextId (db.trainingJobs.map (fun x => x.id))
      userId := data.userId
      jobId := data.jobId
      name := data.name
      description := data.description
      modelType := data.modelType
      task := data.task
      datasetId := data.datasetId
      config := data.config
      status := data.status
      progress := 0
      errorMessage := none
      metrics := none
      modelPath := none
      createdAt := now
      startedAt := none
      completedAt := none
      updatedAt := none }
  (row, { db with trainingJobs := db.trainingJobs ++ [row] })

/-- Modelled from the spec: `auth_crud.get_training_job(db, job_id,
user_id)` is called by the job routes but absent from the source; it
returns the user's training job with that `job_id` string, or `None`. -/
def get_training_job (db : DB) (jobId : String) (userId : Nat) :
    Option TrainingJobRow :=
  db.trainingJobs.find? (fun j => j.jobId == jobId && j.userId == userId)

/-- Modelled from the spec: `auth_crud.get_training_job_by_id(db, job_id)`
is called by `run_training_task` but absent from the source; it returns
the training job with that `job_id` string, or `None`. -/
def get_training_job_by_id (db : DB) (jobId : String) :
    Option TrainingJobRow :=
  db.trainingJobs.find? (fun j => j.jobId == jobId)

/-- Field payload handed to `create_user_model` by `run_training_task`. -/
structure UserModelCreate where
  userId : Nat
  name : String
  description : Option String
  modelType : String
  task : String
  modelPath : String
  trainingJobId : Nat
  datasetId : Nat
  metadataInfo : ModelMeta
deriving Repr, DecidableEq

/-- Modelled from the spec: `auth_crud.create_user_model(db, data)` is
called by `run_training_task` but absent from the source; per the spec's
model-registration step it inserts a `user_models` row with the supplied
fields. -/
def create_user_model (db : DB) (data : UserModelCreate) :
    UserModelRow × DB :=
  let row : UserModelRow :=
    { id := nextId (db.userModels.map (fun x => x.id))
      userId := data.userId
      name := data.name
      description := data.description
      modelType := data.modelType
      task := data.task
      modelPath := data.modelPath
      trainingJobId := data.trainingJobId
      datasetId := data.datasetId
      metadataInfo := data.metadataInfo }
  (row, { db with userModels := db.userModels ++ [row] })

/-! ## Training routes, from `backend/app/routes/training.py` -/

/-- `TrainingConfig` request body.  `learning_rate` is carried as its
opaque literal: the routes only forward it. -/
structure TrainingConfig where
  modelType : String
  datasetId : Nat
  task : String
  name : Option String
  description : Option String
  epochs : Nat
  batchSize : Nat
  learningRate : String
  maxLength : Nat
  targetMaxLength : Nat
  languages : Option (List String)
deriving Repr, DecidableEq

/-- Arguments of the background task enqueued by `start_training`. -/
structure PendingTask where
  jobId : String
  userId : Nat
  cfg : TrainingConfig
  datasetPath : String
deriving Repr, DecidableEq

/-- The hyperparameter sub-dict stored as the job's `config` column
(`config.dict(exclude={...})` keeps the model/task/hyperparameters). -/
def configBlob (cfg : TrainingConfig) : JsonBlob :=
  [("model_type", cfg.modelType), ("task", cfg.task),
   ("epochs", toString cfg.epochs), ("batch_size", toString cfg.batchSize),
   ("learning_rate", cfg.learningRate),
   ("max_length", toString cfg.maxLength),
   ("target_max_length", toString cfg.targetMaxLength)]

/-- The job name: `config.name` when given, otherwise
`{model_type}_{task}_{timestamp}` with the formatted timestamp `nowStr`. -/
def defaultJobName (cfg : TrainingConfig) (nowStr : String) : String :=
  match cfg.name with
  | some n => n
  | none => cfg.modelType ++ "_" ++ cfg.task ++ "_" ++ nowStr

/-- The `create_training_job` payload assembled by `start_training`. -/
def startPayload (user : UserRow) (cfg : TrainingConfig) (jobId : String)
    (nowStr : String) : TrainingJobCreate :=
  { userId := user.id
    jobId := jobId
    name := defaultJobName cfg nowStr
    description := cfg.description
    modelType := cfg.modelType
    task := cfg.task
    datasetId := cfg.datasetId
    config := configBlob cfg
    status := "pending" }

/-- `POST /api/training/start` (`start_training`): requires the dataset to
exist and belong to the caller, inserts a `pending` job row, and enqueues
`run_training_task`.  `jobId` is the fresh UUID; `nowStr` is the formatted
timestamp used in the default job name. -/
def start_training (db : DB) (now : Nat) (nowStr : String) (user : UserRow)
    (cfg : TrainingConfig) (jobId : String) :
    RouteResult TrainingJobRow × DB × Option PendingTask :=
  match get_user_dataset db cfg.datasetId user.id with
  | none => (RouteResult.error 404 "Dataset not found", db, none)
  | some ds =>
    (RouteResult.ok (create_training_job db now (startPayload user cfg jobId nowStr)).1,
     (create_training_job db now (startPayload user cfg jobId nowStr)).2,
     some { jobId := jobId, userId := user.id, cfg := cfg,
            datasetPath := ds.filePath })

/-- A notification email handed to `EmailService.send_notification_email`. -/
structure EmailMsg where
  toEmail : String
  username : String
  notificationType : String
  jobId : String
  modelName : Option String
  metrics : Option JsonBlob
  errorText : Option String
deriving Repr, DecidableEq

/-- Output directory computed by `run_training_task`. -/
def outputDirFor (cfg : TrainingConfig) (jobId : String) : String :=
  "data/models/" ++ cfg.modelType ++ "_" ++ cfg.task ++ "_" ++ jobId

/-- Map-update of the training job with the given `job_id` string
(the SQLAlchemy code mutates the fetched row in place and commits). -/
def updateJob (jobId : String) (f : TrainingJobRow → TrainingJobRow)
    (l : List TrainingJobRow) : List TrainingJobRow :=
  l.map (fun j => if j.jobId == jobId then f j else j)

/-- The status-to-running commit at the head of `run_training_task`'s
`try` block: fetch the job by `job_id`, set `status = 'running'` and
`started_at` when it exists. -/
def markRunning (db : DB) (t1 : Nat) (jobId : String) : DB :=
  match get_training_job_by_id db jobId with
  | none => db
  | some _ =>
    { db with trainingJobs := updateJob jobId (fun j => { j with status := "running", startedAt := some t1 }) db.trainingJobs }

/-- The failure commit of `run_training_task`'s `except` branch:
`status = 'failed'`, `error_message`, `completed_at`. -/
def markFailed (db : DB) (t2 : Nat) (jobId : String) (msg : String) : DB :=
  { db with trainingJobs := updateJob jobId (fun j => { j with status := "failed", errorMessage := some msg, completedAt := some t2 }) db.trainingJobs }

/-- The success commit of `run_training_task`: `status = 'completed'`,
`completed_at`, `metrics`, `model_path`, `progress = 100`. -/
def markCompleted (db : DB) (t2 : Nat) (jobId outDir : String)
    (metrics : JsonBlob) : DB :=
  { db with trainingJobs := updateJob jobId (fun j => { j with status := "completed", completedAt := some t2, metrics := some metrics, modelPath := some outDir, progress := 100 }) db.trainingJobs }

/-- `run_training_task`: the background task.  Everything the `try` block
runs after the status-to-running commit — the dataset file read, data
preparation and the `transformers` training call — is external to the
repository and enters the model as `outcome` (`Except.error msg` standing
for any raised exception with message `msg`).  `t1` and `t2` are the
`datetime.utcnow()` readings at the start and at completion/failure.
Returns the new database state, the notification emails sent, and the
re-raised exception message if any (the `except` branch ends in
`raise e`); the task body is applied exactly once — the code has no retry
or backoff path. -/
def run_training_task (db : DB) (t1 t2 : Nat) (jobId : String)
    (userId : Nat) (cfg : TrainingConfig)
    (outcome : Except String JsonBlob) :
    DB × List EmailMsg × Option String :=
  let db1 := markRunning db t1 jobId
  match outcome with
  | Except.error msg =>
    match get_training_job_by_id db1 jobId with
    | none => (db1, [], some msg)
    | some _ =>
      let db2 := markFailed db1 t2 jobId msg
      match get_user_by_id db2 userId with
      | none => (db2, [], some msg)
      | some user =>
        if user.email ≠ "" then
          (db2,
           [{ toEmail := user.email
              username := user.username
              notificationType := "training_failed"
              jobId := jobId
              modelName := none
              metrics := none
              errorText := some msg }], some msg)
        else (db2, [], some msg)
  | Except.ok metrics =>
    match get_training_job_by_id db1 jobId with
    | none => (db1, [], none)
    | some job =>
      let outDir := outputDirFor cfg jobId
      let job2 := { job with status := "completed", completedAt := some t2,
                             metrics := some metrics,
                             modelPath := some outDir, progress := 100 }
      let db2 := markCompleted db1 t2 jobId outDir metrics
      let db3 := (create_user_model db2
        { userId := userId
          name := job2.name
          description := job2.description
          modelType := cfg.modelType
          task := cfg.task
          modelPath := outDir
          trainingJobId := job2.id
          datasetId := job2.datasetId
          metadataInfo :=
            { epochs := cfg.epochs
              batchSize := cfg.batchSize
              learningRate := cfg.learningRate
              metrics := metrics } }).2
      match get_user_by_id db3 userId with
      | none => (db3, [], none)
      | some user =>
        if user.email ≠ "" then
          (db3,
           [{ toEmail := user.email
              username := user.username
              notificationType := "training_completed"
              jobId := jobId
              modelName := some job2.name
              metrics := some metrics
              errorText := none }], none)
        else (db3, [], none)

/-- The full lifecycle of one training request: `start_training` followed
by the background execution of the enqueued `run_training_task` (FastAPI
runs the task after the response; the composition encodes the
creation → execution → persistence → registration → notification order). -/
def training_flow (db : DB) (now : Nat) (nowStr : String) (t1 t2 : Nat)
    (user : UserRow) (cfg : TrainingConfig) (jobId : String)
    (outcome : Except String JsonBlob) :
    RouteResult TrainingJobRow × DB × List EmailMsg :=
  match start_training db now nowStr user cfg jobId with
  | (RouteResult.error c d, db1, _) => (RouteResult.error c d, db1, [])
  | (RouteResult.ok job, db1, none) => (RouteResult.ok job, db1, [])
  | (RouteResult.ok job, db1, some task) =>
    (RouteResult.ok job,
     (run_training_task db1 t1 t2 task.jobId task.userId task.cfg outcome).1,
     (run_training_task db1 t1 t2 task.jobId task.userId task.cfg outcome).2.1)

/-- `DELETE /api/training/jobs/{job_id}` (`cancel_training_job`): 404 when
the caller owns no such job; 400 unless the status is `pending` or
`running`; otherwise sets `status = 'cancelled'` and `updated_at` and
returns — the `# TODO: Actually stop the training process` comment marks
that nothing touches the running background task. -/
def cancel_training_job (db : DB) (now : Nat) (userId : Nat)
    (jobId : String) : RouteResult String × DB :=
  match get_training_job db jobId userId with
  | none => (RouteResult.error 404 "Training job not found", db)
  | some job =>
    if ¬ (job.status = "pending" ∨ job.status = "running") then
      (RouteResult.error 400 ("Cannot cancel job with status: " ++ job.status),
       db)
    else
      let tj := updateJob jobId
        (fun j => { j with status := "cancelled", updatedAt := some now })
        db.trainingJobs
      (RouteResult.ok "Training job cancelled", { db with trainingJobs := tj })

/-! ## API-key dependency, from `backend/app/middleware/api_key_auth.py` -/

/-- The names bound at module level of `api_key_auth.py` when
`api_key_auth` runs: the imports of lines 1–9 plus the two module
globals.  `datetime` is not among them — the module never imports it. -/
def apiKeyAuthModuleNames : List String :=
  ["Request", "HTTPException", "Depends", "APIKeyHeader", "Session",
   "Optional", "logging", "get_db", "crud", "schemas", "check_permissions",
   "logger", "api_key_header"]

/-- Outcome of a Python callable at its public interface: a returned
value, a raised `HTTPException`, or a raised `NameError` on an unbound
name. -/
inductive PyResult (α : Type) where
  | value (a : α)
  | httpException (statusCode : Nat) (detail : String)
  | nameError (missing : String)
deriving Repr, DecidableEq

/-- `api_key_auth`: pass-through without a header; look the key up
(`get_api_key_by_key` already filters on `is_active`); then the expiry
check `db_api_key.expires_at and db_api_key.expires_at < datetime.utcnow()`
— when `expires_at` is non-null the right operand evaluates `datetime`,
which resolves against the module's bound names; then the user lookup and
the last-used update. -/
def api_key_auth (db : DB) (now : Nat) (apiKey : Option String) :
    PyResult (Option UserRow) × DB :=
  match apiKey with
  | none => (PyResult.value none, db)
  | some key =>
    match get_api_key_by_key db key with
    | none => (PyResult.httpException 401 "Invalid API key", db)
    | some dbKey =>
      let afterExpiry : PyResult (Option UserRow) × DB :=
        match get_user_by_id db dbKey.userId with
        | none => (PyResult.httpException 401 "User not found or inactive", db)
        | some user =>
          if user.status = UserStatus.ACTIVE then
            (PyResult.value (some user),
             update_api_key_last_used db now dbKey.id)
          else
            (PyResult.httpException 401 "User not found or inactive", db)
      match dbKey.expiresAt with
      | none => afterExpiry
      | some expiry =>
        if "datetime" ∈ apiKeyAuthModuleNames then
          if expiry < now then
            (PyResult.httpException 401 "API key expired", db)
          else afterExpiry
        else (PyResult.nameError "datetime", db)

/-! ## The served application, from `backend/app/main.py`

`app/main.py` builds the `FastAPI` instance that `uvicorn.run` serves and
registers every route with `@app.get`/`@app.post` decorators; it calls
`include_router` nowhere, so the routers defined under `app/routes/` and
`app/auth/routes.py` are never mounted.  A route "requires auth" when its
handler signature carries an authentication dependency
(`Depends(get_current_user)` or the API-key dependency); every handler in
`main.py` depends only on `get_db`. -/

/-- One registered route of the served app. -/
structure AppRoute where
  method : String
  path : String
  requiresAuth : Bool
deriving Repr, DecidableEq

/-- The complete route table of `backend/app/main.py`, decorator by
decorator. -/
def mainAppRoutes : List AppRoute :=
  [{ method := "GET", path := "/docs", requiresAuth := false },
   { method := "GET", path := "/redoc", requiresAuth := false },
   { method := "GET", path := "/", requiresAuth := false },
   { method := "GET", path := "/health", requiresAuth := false },
   { method := "POST", path := "/api/training/start", requiresAuth := false },
   { method := "GET", path := "/api/training/jobs", requiresAuth := false },
   { method := "GET", path := "/api/training/jobs/{job_id}", requiresAuth := false },
   { method := "POST", path := "/api/training/upload-dataset", requiresAuth := false },
   { method := "GET", path := "/api/training/models", requiresAuth := false },
   { method := "POST", path := "/api/training/evaluate", requiresAuth := false },
   { method := "POST", path := "/api/inference/predict", requiresAuth := false },
   { method := "GET", path := "/api/datasets", requiresAuth := false },
   { method := "POST", path := "/api/datasets", requiresAuth := false },
   { method := "GET", path := "/api/models", requiresAuth := false }]

/-- `GET /health` (`main.health_check`): `db.execute("SELECT 1")` either
succeeds or raises; a failure becomes HTTP 503 with the exception's
message in the detail. -/
def health_check (dbError : Option String) : RouteResult (List (String × String)) :=
  match dbError with
  | none =>
    RouteResult.ok [("status", "healthy"), ("database", "connected")]
  | some e => RouteResult.error 503 ("Service unavailable: " ++ e)

/-! ## Error-raise sites across the backend

Every `raise HTTPException(status_code=..., detail=...)` site of a route
handler or dependency under `backend/app/`, with its file and enclosing
function, in source order. -/

/-- One `HTTPException` raise site. -/
structure RaiseSite where
  fileName : String
  handler : String
  statusCode : Nat
deriving Repr, DecidableEq

/-- All `HTTPException` raise sites of the backend, file by file. -/
def handlerErrorSites : List RaiseSite :=
  [{ fileName := "backend/app/main.py", handler := "health_check", statusCode := 503 },
   { fileName := "backend/app/main.py", handler := "start_training", statusCode := 400 },
   { fileName := "backend/app/main.py", handler := "get_training_jobs", statusCode := 500 },
   { fileName := "backend/app/main.py", handler := "get_training_job", statusCode := 500 },
   { fileName := "backend/app/main.py", handler := "upload_dataset", statusCode := 400 },
   { fileName := "backend/app/main.py", handler := "evaluate_model", statusCode := 500 },
   { fileName := "backend/app/main.py", handler := "predict", statusCode := 400 },
   { fileName := "backend/app/main.py", handler := "list_datasets", statusCode := 500 },
   { fileName := "backend/app/main.py", handler := "create_dataset", statusCode := 400 },
   { fileName := "backend/app/main_simple.py", handler := "health_check", statusCode := 503 },
   { fileName := "backend/app/auth/routes.py", handler := "register", statusCode := 400 },
   { fileName := "backend/app/auth/routes.py", handler := "register", statusCode := 500 },
   { fileName := "backend/app/auth/routes.py", handler := "login", statusCode := 401 },
   { fileName := "backend/app/auth/routes.py", handler := "login", statusCode := 401 },
   { fileName := "backend/app/auth/routes.py", handler := "login", statusCode := 403 },
   { fileName := "backend/app/auth/routes.py", handler := "refresh_token", statusCode := 401 },
   { fileName := "backend/app/auth/routes.py", handler := "logout", statusCode := 400 },
   { fileName := "backend/app/auth/routes.py", handler := "logout_all", statusCode := 400 },
   { fileName := "backend/app/auth/routes.py", handler := "update_current_user", statusCode := 404 },
   { fileName := "backend/app/auth/routes.py", handler := "change_password", statusCode := 400 },
   { fileName := "backend/app/auth/routes.py", handler := "change_password", statusCode := 500 },
   { fileName := "backend/app/auth/routes.py", handler := "reset_password", statusCode := 400 },
   { fileName := "backend/app/auth/routes.py", handler := "reset_password", statusCode := 500 },
   { fileName := "backend/app/auth/routes.py", handler := "verify_email", statusCode := 400 },
   { fileName := "backend/app/auth/routes.py", handler := "verify_email", statusCode := 500 },
   { fileName := "backend/app/auth/routes.py", handler := "resend_verification", statusCode := 400 },
   { fileName := "backend/app/auth/routes.py", handler := "revoke_api_key", statusCode := 404 },
   { fileName := "backend/app/auth/routes.py", handler := "get_users", statusCode := 403 },
   { fileName := "backend/app/middleware/api_key_auth.py", handler := "api_key_auth", statusCode := 401 },
   { fileName := "backend/app/middleware/api_key_auth.py", handler := "api_key_auth", statusCode := 401 },
   { fileName := "backend/app/middleware/api_key_auth.py", handler := "api_key_auth", statusCode := 401 },
   { fileName := "backend/app/routes/evaluation.py", handler := "evaluate_model", statusCode := 404 },
   { fileName := "backend/app/routes/evaluation.py", handler := "evaluate_model", statusCode := 404 },
   { fileName := "backend/app/routes/transliteration.py", handler := "transliterate_text", statusCode := 500 },
   { fileName := "backend/app/routes/transliteration.py", handler := "transliterate_batch", statusCode := 500 },
   { fileName := "backend/app/routes/transliteration.py", handler := "detect_script", statusCode := 500 },
   { fileName := "backend/app/routes/transliteration.py", handler := "get_supported_scripts", statusCode := 500 },
   { fileName := "backend/app/routes/transliteration.py", handler := "transliterate_legal_terms", statusCode := 500 },
   { fileName := "backend/app/routes/datasets.py", handler := "upload_dataset", statusCode := 400 },
   { fileName := "backend/app/routes/datasets.py", handler := "upload_dataset", statusCode := 400 },
   { fileName := "backend/app/routes/datasets.py", handler := "get_dataset", statusCode := 404 },
   { fileName := "backend/app/routes/datasets.py", handler := "delete_dataset", statusCode := 404 },
   { fileName := "backend/app/routes/datasets.py", handler := "share_dataset", statusCode := 404 },
   { fileName := "backend/app/routes/datasets.py", handler := "get_dataset_stats", statusCode := 404 },
   { fileName := "backend/app/routes/pdf_processor.py", handler := "process_pdf", statusCode := 400 },
   { fileName := "backend/app/routes/pdf_processor.py", handler := "download_file", statusCode := 404 },
   { fileName := "backend/app/routes/translation.py", handler := "translate_text", statusCode := 500 },
   { fileName := "backend/app/routes/translation.py", handler := "translate_batch", statusCode := 500 },
   { fileName := "backend/app/routes/translation.py", handler := "translate_document", statusCode := 500 },
   { fileName := "backend/app/routes/translation.py", handler := "get_supported_languages", statusCode := 500 },
   { fileName := "backend/app/routes/translation.py", handler := "detect_language", statusCode := 500 },
   { fileName := "backend/app/routes/translation.py", handler := "split_by_language", statusCode := 500 },
   { fileName := "backend/app/routes/inference.py", handler := "generate_summary", statusCode := 404 },
   { fileName := "backend/app/routes/inference.py", handler := "generate_summary", statusCode := 404 },
   { fileName := "backend/app/routes/inference.py", handler := "generate_summary", statusCode := 500 },
   { fileName := "backend/app/routes/inference.py", handler := "batch_generate_summary", statusCode := 404 },
   { fileName := "backend/app/routes/inference.py", handler := "batch_generate_summary", statusCode := 404 },
   { fileName := "backend/app/routes/inference.py", handler := "batch_generate_summary", statusCode := 500 },
   { fileName := "backend/app/routes/inference.py", handler := "evaluate_model", statusCode := 404 },
   { fileName := "backend/app/routes/inference.py", handler := "evaluate_model", statusCode := 404 },
   { fileName := "backend/app/routes/inference.py", handler := "evaluate_model", statusCode := 500 },
   { fileName := "backend/app/routes/training.py", handler := "start_training", statusCode := 404 },
   { fileName := "backend/app/routes/training.py", handler := "get_training_job", statusCode := 404 },
   { fileName := "backend/app/routes/training.py", handler := "cancel_training_job", statusCode := 404 },
   { fileName := "backend/app/routes/training.py", handler := "cancel_training_job", statusCode := 400 },
   { fileName := "backend/app/routes/multilingual.py", handler := "train_multilingual_model", statusCode := 404 },
   { fileName := "backend/app/routes/multilingual.py", handler := "train_multilingual_model", statusCode := 500 },
   { fileName := "backend/app/routes/multilingual.py", handler := "generate_multilingual", statusCode := 404 },
   { fileName := "backend/app/routes/multilingual.py", handler := "generate_multilingual", statusCode := 500 },
   { fileName := "backend/app/routes/multilingual.py", handler := "list_multilingual_models", statusCode := 500 },
   { fileName := "backend/app/routes/multilingual.py", handler := "translate_and_summarize", statusCode := 500 }]

/-! ## List lemmas used throughout the proofs -/

lemma find?_append_none {α : Type} (l₁ l₂ : List α) (p : α → Bool)
    (h : l₁.find? p = none) : (l₁ ++ l₂).find? p = l₂.find? p := by
  induction l₁ with
  | nil => rfl
  | cons a l ih =>
    cases hp : p a with
    | true => simp [List.find?_cons_of_pos, hp] at h
    | false =>
      simp only [List.find?_cons_of_neg, hp, Bool.false_eq_true,
        not_false_iff] at h
      simp only [List.cons_append, List.find?_cons_of_neg, hp,
        Bool.false_eq_true, not_false_iff]
      exact ih h

lemma find?_append_some {α : Type} (l₁ l₂ : List α) (p : α → Bool) (a : α)
    (h : l₁.find? p = some a) : (l₁ ++ l₂).find? p = some a := by
  induction l₁ with
  | nil => simp [List.find?] at h
  | cons b l ih =>
    cases hp : p b with
    | true =>
      simp only [List.find?_cons_of_pos, hp] at h
      simp only [List.cons_append, List.find?_cons_of_pos, hp]
      exact h
    | false =>
      simp only [List.find?_cons_of_neg, hp, Bool.false_eq_true,
        not_false_iff] at h
      simp only [List.cons_append, List.find?_cons_of_neg, hp,
        Bool.false_eq_true, not_false_iff]
      exact ih h

lemma find?_map_of_key {α : Type} (l : List α) (p : α → Bool) (f : α → α)
    (hp : ∀ a, p (f a) = p a) :
    (l.map f).find? p = (l.find? p).map f := by
  induction l with
  | nil => rfl
  | cons a l ih =>
    cases hpa : p a with
    | true =>
      simp only [List.map_cons, List.find?_cons_of_pos, hp a, hpa,
        Option.map_some']
    | false =>
      simp only [List.map_cons]
      rw [List.find?_cons_of_neg, List.find?_cons_of_neg]
      · exact ih
      · simp [hpa]
      · simp [hp a, hpa]

/-! ## Concrete sample states used by witnesses -/

/-- The empty database. -/
def emptyDB : DB :=
  { users := [], refreshTokens := [], apiKeys := [],
    emailVerificationTokens := [], trainingJobs := [], userDatasets := [],
    userModels := [] }

/-- A concrete active user. -/
def sampleUser : UserRow :=
  { id := 1, email := "ada@example.com", username := "ada",
    fullName := none, hashedPassword := "h1", role := UserRole.USER,
    status := UserStatus.ACTIVE, preferences := defaultPreferences,
    createdAt := 0, updatedAt := none, lastLogin := none,
    emailVerifiedAt := none }

/-- A concrete active API key for `sampleUser` whose `expires_at` column
is non-null. -/
def sampleApiKey : ApiKeyRow :=
  { id := 1, userId := 1, name := "ci", key := "key123", secret := "s",
    scopes := ["read", "write"], rateLimit := 100, isActive := true,
    lastUsed := none, expiresAt := some 9999, createdAt := 0 }

/-- Database holding `sampleUser` and `sampleApiKey`. -/
def sampleApiKeyDb : DB :=
  { emptyDB with users := [sampleUser], apiKeys := [sampleApiKey] }

/-- Prefix test on character lists (kernel-computable, unlike
`String.startsWith`). -/
def charsLeadWith : List Char → List Char → Bool
  | [], _ => true
  | _ :: _, [] => false
  | a :: as, b :: bs => a == b && charsLeadWith as bs

/-- `pathUnder pre path`: the route path starts with the given text. -/
def pathUnder (pre path : String) : Bool :=
  charsLeadWith pre.data path.data

/-! ## Claim C4 -/

/-- C4 counterexample: the served application (`backend/app/main.py`,
which `uvicorn.run` serves and which never calls `include_router`)
registers no route whose path lies under `/api/auth` (nor under
`/api/evaluation`, `/api/translation`, `/api/transliteration` or
`/api/multilingual`), and none of the routes it does register carries an
authentication dependency — so the claim fails on both conjuncts. -/
theorem served_app_lacks_auth_routes :
    mainAppRoutes.all (fun r => ! pathUnder "/api/auth" r.path) = true
  ∧ mainAppRoutes.all (fun r => ! r.requiresAuth) = true := by
  constructor <;> decide

/-- C4 (amended): the served application registers routes only under the
prefixes `/api/training`, `/api/inference`, `/api/datasets` and
`/api/models` (plus `/`, `/health`, `/docs`, `/redoc`), with at least one
route under each of those four API prefixes; it registers none under
`/api/auth`, `/api/evaluation`, `/api/translation`, `/api/transliteration`
or `/api/multilingual`, and none of its routes requires a bearer JWT or an
`X-API-Key` header. -/
theorem served_app_route_surface :
    mainAppRoutes.all (fun r =>
      pathUnder "/api/training" r.path || pathUnder "/api/inference" r.path
        || pathUnder "/api/datasets" r.path || pathUnder "/api/models" r.path
        || r.path == "/" || r.path == "/health" || r.path == "/docs"
        || r.path == "/redoc") = true
  ∧ mainAppRoutes.any (fun r => pathUnder "/api/training" r.path) = true
  ∧ mainAppRoutes.any (fun r => pathUnder "/api/inference" r.path) = true
  ∧ mainAppRoutes.any (fun r => pathUnder "/api/datasets" r.path) = true
  ∧ mainAppRoutes.any (fun r => pathUnder "/api/models" r.path) = true
  ∧ mainAppRoutes.all (fun r => ! r.requiresAuth) = true
  ∧ mainAppRoutes.all (fun r =>
      ! pathUnder "/api/auth" r.path
        && ! pathUnder "/api/evaluation" r.path
        && ! pathUnder "/api/translation" r.path
        && ! pathUnder "/api/transliteration" r.path
        && ! pathUnder "/api/multilingual" r.path) = true := by
  refine ⟨by decide, by decide, by decide, by decide, by decide, by decide, by decide⟩

/-! ## Claim C7 -/

/-- C7 counterexample: `main.health_check` surfaces a database failure as
HTTP 503, which lies outside the claimed set {400, 401, 403, 404, 500};
the 503 raise site is in the backend's error-site table. -/
theorem error_status_outside_spec_set :
    health_check (some "connection refused")
      = RouteResult.error 503 "Service unavailable: connection refused"
  ∧ ¬ (503 ∈ [400, 401, 403, 404, 500])
  ∧ ({ fileName := "backend/app/main.py", handler := "health_check",
       statusCode := 503 } : RaiseSite) ∈ handlerErrorSites := by
  refine ⟨rfl, by decide, by decide⟩

/-- C7 (amended): every `HTTPException` a route handler of the
application raises carries a status code in {400, 401, 403, 404, 500},
except the `health_check` handlers (`app/main.py`, `app/main_simple.py`),
which answer 503 with a detail message when the database connectivity
test fails. -/
theorem error_statuses_in_spec_set_or_health_503 :
    handlerErrorSites.all (fun s =>
      (s.statusCode == 400 || s.statusCode == 401 || s.statusCode == 403
        || s.statusCode == 404 || s.statusCode == 500)
      || (s.statusCode == 503 && s.handler == "health_check")) = true := by
  decide

/-! ## Claim C9 -/

/-- C9: `api_key_auth` is not total at its public interface.
`backend/app/middleware/api_key_auth.py` never imports `datetime`, yet
line 34 evaluates `datetime.utcnow()` whenever the presented key's
`expires_at` column is non-null; for such a key the function raises
`NameError`, not a return and not an `HTTPException` — contradicting the
function's own expiry branch, whose evident intent is HTTP 401
"API key expired". Evaluated here at a concrete failing input: an active
API key with `expires_at` set. -/
theorem api_key_auth_raises_name_error :
    api_key_auth sampleApiKeyDb 100 (some "key123")
      = (PyResult.nameError "datetime", sampleApiKeyDb)
  ∧ ¬ ("datetime" ∈ apiKeyAuthModuleNames) := by
  refine ⟨by decide, by decide⟩

/-! ## Claim C6 -/

/-- C6: a registration whose email matches an existing user fails:
`create_user` raises `ValueError("Email already registered")` before any
insert (the email check is the first statement), and the `register` route
maps it to HTTP 400 with that detail, leaving the database unchanged. -/
theorem duplicate_email_registration_rejected (env : AuthEnv) (db : DB)
    (now : Nat) (vtok : String) (u : UserCreate)
    (h : (get_user_by_email db u.email).isSome = true) :
    create_user db now env.hashPassword u
      = Except.error "Email already registered"
  ∧ register env db now vtok u
      = (RouteResult.error 400 "Email already registered", db) := by
  cases hx : get_user_by_email db u.email with
  | none => rw [hx] at h; simp at h
  | some w =>
    constructor
    · simp [create_user, hx]
    · simp [register, create_user, hx]

/-- A concrete environment of crypto primitives for witnesses. -/
def sampleEnv : AuthEnv :=
  { verifyRefresh := fun _ => some 1
    mkAccessToken := fun _ => "access-jwt"
    mkRefreshToken := fun _ => "refresh-jwt"
    verifyPassword := fun pw hs => hs == pw
    hashPassword := fun pw => pw
    refreshExpireDays := 7
    accessExpireMinutes := 30 }

/-- Database holding just `sampleUser`. -/
def sampleUserDb : DB := { emptyDB with users := [sampleUser] }

/-- A registration payload reusing `sampleUser`'s email. -/
def sampleDupCreate : UserCreate :=
  { email := "ada@example.com", username := "fresh", fullName := none,
    password := "pw" }

/-- Witness for C6 at a concrete duplicate registration. -/
theorem duplicate_email_registration_rejected_witness :
    (get_user_by_email sampleUserDb sampleDupCreate.email).isSome = true
  ∧ register sampleEnv sampleUserDb 7 "vt" sampleDupCreate
      = (RouteResult.error 400 "Email already registered", sampleUserDb) :=
  ⟨by decide,
   (duplicate_email_registration_rejected sampleEnv sampleUserDb 7 "vt"
     sampleDupCreate (by decide)).2⟩

/-! ## Claim C8 -/

/-- C8: `delete_user` is a soft delete.  For an existing id it returns
`True` and the row stays present with only `status` (set to INACTIVE) and
`updated_at` changed — the `{ u with ... }` form fixes every other field
(email, username, hashed_password, role, preferences, created_at,
last_login, email_verified_at, full_name, id) to its old value — while
every other user row and every other table is untouched; for a missing id
it returns `False` and changes nothing. -/
theorem delete_user_is_soft_delete (db : DB) (now : Nat) (userId : Nat) :
    (∀ u, get_user_by_id db userId = some u →
        (delete_user db now userId).1 = true
      ∧ get_user_by_id (delete_user db now userId).2 userId
          = some { u with status := UserStatus.INACTIVE,
                          updatedAt := some now }
      ∧ (∀ v ∈ db.users, v.id ≠ userId →
            v ∈ (delete_user db now userId).2.users)
      ∧ (delete_user db now userId).2.users.length = db.users.length
      ∧ (delete_user db now userId).2.refreshTokens = db.refreshTokens
      ∧ (delete_user db now userId).2.apiKeys = db.apiKeys
      ∧ (delete_user db now userId).2.emailVerificationTokens
          = db.emailVerificationTokens
      ∧ (delete_user db now userId).2.trainingJobs = db.trainingJobs
      ∧ (delete_user db now userId).2.userDatasets = db.userDatasets
      ∧ (delete_user db now userId).2.userModels = db.userModels)
  ∧ (get_user_by_id db userId = none →
      delete_user db now userId = (false, db)) := by
  constructor
  · intro u hu
    have hpres : ∀ a : UserRow,
        ((softDeleteUpdate now userId a).id == userId)
          = (a.id == userId) := by
      intro a
      unfold softDeleteUpdate
      by_cases ha : a.id = userId
      · simp [ha]
      · simp [ha]
    have hu2 : db.users.find? (fun x => x.id == userId) = some u := hu
    have hpu := List.find?_some hu2
    simp only at hpu
    have hmap : get_user_by_id (delete_user db now userId).2 userId
        = some (softDeleteUpdate now userId u) := by
      simp only [delete_user, hu]
      unfold get_user_by_id
      simp only
      rw [find?_map_of_key _ _ _ hpres]
      unfold get_user_by_id at hu
      rw [hu]
      rfl
    refine ⟨by simp [delete_user, hu], ?_, ?_, ?_, ?_, ?_, ?_, ?_, ?_, ?_⟩
    · rw [hmap]
      unfold softDeleteUpdate
      rw [if_pos hpu]
    · intro v hv hvne
      simp only [delete_user, hu]
      have hfix : softDeleteUpdate now userId v = v := by
        unfold softDeleteUpdate
        rw [if_neg]
        simp [hvne]
      exact hfix ▸ List.mem_map_of_mem _ hv
    · simp [delete_user, hu]
    · simp [delete_user, hu]
    · simp [delete_user, hu]
    · simp [delete_user, hu]
    · simp [delete_user, hu]
    · simp [delete_user, hu]
    · simp [delete_user, hu]
  · intro h
    simp [delete_user, h]

/-- Witness for C8: soft-deleting the sample user and a missing id. -/
theorem delete_user_is_soft_delete_witness :
    (delete_user sampleUserDb 9 1).1 = true
  ∧ get_user_by_id (delete_user sampleUserDb 9 1).2 1
      = some { sampleUser with status := UserStatus.INACTIVE,
                               updatedAt := some 9 }
  ∧ delete_user sampleUserDb 9 42 = (false, sampleUserDb) :=
  ⟨((delete_user_is_soft_delete sampleUserDb 9 1).1 sampleUser (by decide)).1,
   ((delete_user_is_soft_delete sampleUserDb 9 1).1 sampleUser (by decide)).2.1,
   (delete_user_is_soft_delete sampleUserDb 9 42).2 (by decide)⟩

/-! ## Claim C3 -/

/-- The stored row for this token string is revoked, or no row exists. -/
def tokenRevokedOrAbsent (db : DB) (token : String) : Bool :=
  match get_refresh_token db token with
  | none => true
  | some r => r.isRevoked

lemma get_current_user_from_refresh_token_none (env : AuthEnv) (db : DB)
    (token : String) (h : tokenRevokedOrAbsent db token = true) :
    get_current_user_from_refresh_token env db token = none := by
  unfold get_current_user_from_refresh_token
  cases hv : env.verifyRefresh token with
  | none => rfl
  | some uid =>
    unfold tokenRevokedOrAbsent at h
    cases hr : get_refresh_token db token with
    | none => simp [hr]
    | some r =>
      rw [hr] at h
      simp only at h
      simp [hr, h]

lemma refresh_route_rejects (env : AuthEnv) (db : DB) (now : Nat)
    (token : String) (h : tokenRevokedOrAbsent db token = true) :
    refresh_route env db now token
      = (RouteResult.error 401 "Invalid refresh token", db) := by
  unfold refresh_route
  rw [get_current_user_from_refresh_token_none env db token h]

/-- C3: whenever the stored refresh-token row is revoked (or absent),
`get_current_user_from_refresh_token` returns `None` — for every JWT
verification outcome — and `POST /api/auth/refresh` answers HTTP 401
"Invalid refresh token" with the database unchanged, so no new access
token is minted and no refresh-token row is added. -/
theorem revoked_refresh_token_cannot_mint (env : AuthEnv) (db : DB)
    (now : Nat) (token : String)
    (h : tokenRevokedOrAbsent db token = true) :
    get_current_user_from_refresh_token env db token = none
  ∧ refresh_route env db now token
      = (RouteResult.error 401 "Invalid refresh token", db) :=
  ⟨get_current_user_from_refresh_token_none env db token h,
   refresh_route_rejects env db now token h⟩

/-- A concrete revoked refresh-token row for `sampleUser`. -/
def sampleRevokedToken : RefreshTokenRow :=
  { id := 1, userId := 1, token := "tok", expiresAt := 1000,
    isRevoked := true, createdAt := 0 }

/-- Database holding `sampleUser` and the revoked token. -/
def sampleRevokedDb : DB :=
  { emptyDB with users := [sampleUser],
                 refreshTokens := [sampleRevokedToken] }

/-- Witness for C3 at a concrete revoked token. -/
theorem revoked_refresh_token_cannot_mint_witness :
    tokenRevokedOrAbsent sampleRevokedDb "tok" = true
  ∧ refresh_route sampleEnv sampleRevokedDb 5 "tok"
      = (RouteResult.error 401 "Invalid refresh token", sampleRevokedDb) :=
  ⟨by decide,
   (revoked_refresh_token_cannot_mint sampleEnv sampleRevokedDb 5 "tok"
     (by decide)).2⟩

/-! ## Claim C5 -/

/-- C5: `DELETE /api/training/jobs/{job_id}` on the caller's own job in
status `pending` or `running` changes exactly the job's `status` (to
`cancelled`) and `updated_at` — the `{ job with ... }` form fixes every
other field — leaves every other job row, and every other table,
untouched, and returns; the handler's only effects are this row update
(the `# TODO: Actually stop the training process` comment marks that the
running background task is never touched — the embedding's result type,
a response and a database state with no task-control effect, mirrors
that).  For an owned job in any other status it returns HTTP 400 and
changes nothing. -/
theorem cancel_training_job_sets_only_status (db : DB) (now : Nat)
    (userId : Nat) (jobId : String) :
    (∀ job, get_training_job db jobId userId = some job →
        ((job.status = "pending" ∨ job.status = "running") →
            (cancel_training_job db now userId jobId).1
              = RouteResult.ok "Training job cancelled"
          ∧ get_training_job (cancel_training_job db now userId jobId).2
              jobId userId
              = some { job with status := "cancelled",
                                updatedAt := some now }
          ∧ (∀ j ∈ db.trainingJobs, j.jobId ≠ jobId →
                j ∈ (cancel_training_job db now userId jobId).2.trainingJobs)
          ∧ (cancel_training_job db now userId jobId).2.trainingJobs.length
              = db.trainingJobs.length
          ∧ (cancel_training_job db now userId jobId).2.users = db.users
          ∧ (cancel_training_job db now userId jobId).2.refreshTokens
              = db.refreshTokens
          ∧ (cancel_training_job db now userId jobId).2.apiKeys = db.apiKeys
          ∧ (cancel_training_job db now userId jobId).2.emailVerificationTokens
              = db.emailVerificationTokens
          ∧ (cancel_training_job db now userId jobId).2.userDatasets
              = db.userDatasets
          ∧ (cancel_training_job db now userId jobId).2.userModels
              = db.userModels)
      ∧ (¬ (job.status = "pending" ∨ job.status = "running") →
          cancel_training_job db now userId jobId
            = (RouteResult.error 400
                ("Cannot cancel job with status: " ++ job.status), db)))
  ∧ (get_training_job db jobId userId = none →
      cancel_training_job db now userId jobId
        = (RouteResult.error 404 "Training job not found", db)) := by
  constructor
  · intro job hj
    have hj2 : db.trainingJobs.find?
        (fun j => j.jobId == jobId && j.userId == userId) = some job := hj
    have hpj := List.find?_some hj2
    simp only [Bool.and_eq_true, beq_iff_eq] at hpj
    constructor
    · intro hstat
      have hcancel : cancel_training_job db now userId jobId
          = (RouteResult.ok "Training job cancelled",
             { db with trainingJobs := updateJob jobId (fun j => { j with status := "cancelled", updatedAt := some now }) db.trainingJobs }) := by
        simp [cancel_training_job, hj, hstat]
      have hpres : ∀ a : TrainingJobRow,
          (((fun j => if j.jobId == jobId then
              { j with status := "cancelled", updatedAt := some now }
            else j) a).jobId == jobId
          && ((fun j => if j.jobId == jobId then
              { j with status := "cancelled", updatedAt := some now }
            else j) a).userId == userId)
          = (a.jobId == jobId && a.userId == userId) := by
        intro a
        by_cases ha : a.jobId = jobId
        · simp [ha]
        · simp [ha]
      refine ⟨by rw [hcancel], ?_, ?_, ?_, ?_, ?_, ?_, ?_, ?_, ?_⟩
      · rw [hcancel]
        unfold get_training_job updateJob
        simp only
        rw [find?_map_of_key _ _ _ hpres, hj2]
        simp [hpj.1]
      · intro j hjmem hjne
        rw [hcancel]
        simp only [updateJob]
        have hfix : (if j.jobId == jobId then
            { j with status := "cancelled", updatedAt := some now }
          else j) = j := by
          rw [if_neg]
          simp [hjne]
        exact hfix ▸ List.mem_map_of_mem _ hjmem
      · rw [hcancel]; simp [updateJob]
      · rw [hcancel]
      · rw [hcancel]
      · rw [hcancel]
      · rw [hcancel]
      · rw [hcancel]
      · rw [hcancel]
    · intro hstat
      simp [cancel_training_job, hj, hstat]
  · intro h
    simp [cancel_training_job, h]

/-- A concrete running training job owned by `sampleUser`. -/
def sampleRunningJob : TrainingJobRow :=
  { id := 1, userId := 1, jobId := "uuid-1", name := "bart_summarization",
    description := none, modelType := "bart", task := "summarization",
    datasetId := 1, config := [], status := "running", progress := 0,
    errorMessage := none, metrics := none, modelPath := none,
    createdAt := 0, startedAt := some 1, completedAt := none,
    updatedAt := none }

/-- Database holding `sampleUser` and `sampleRunningJob`. -/
def sampleJobDb : DB :=
  { emptyDB with users := [sampleUser], trainingJobs := [sampleRunningJob] }

/-- Witness for C5 at a concrete running job and a missing job id. -/
theorem cancel_training_job_sets_only_status_witness :
    (cancel_training_job sampleJobDb 9 1 "uuid-1").1
      = RouteResult.ok "Training job cancelled"
  ∧ get_training_job (cancel_training_job sampleJobDb 9 1 "uuid-1").2
      "uuid-1" 1
      = some { sampleRunningJob with status := "cancelled",
                                     updatedAt := some 9 }
  ∧ cancel_training_job sampleJobDb 9 1 "missing"
      = (RouteResult.error 404 "Training job not found", sampleJobDb) :=
  ⟨(((cancel_training_job_sets_only_status sampleJobDb 9 1 "uuid-1").1
      sampleRunningJob (by decide)).1 (Or.inr (by decide))).1,
   (((cancel_training_job_sets_only_status sampleJobDb 9 1 "uuid-1").1
      sampleRunningJob (by decide)).1 (Or.inr (by decide))).2.1,
   (cancel_training_job_sets_only_status sampleJobDb 9 1 "missing").2
     (by decide)⟩

/-! ## Claim C2 -/

lemma updateJob_key_pres (jobId : String)
    (f : TrainingJobRow → TrainingJobRow)
    (hf : ∀ a, (f a).jobId = a.jobId) :
    ∀ a : TrainingJobRow,
      ((if a.jobId == jobId then f a else a).jobId == jobId)
        = (a.jobId == jobId) := by
  intro a
  by_cases h : a.jobId = jobId
  · simp [h, hf a]
  · simp [h]

lemma get_training_job_by_id_updateJob (db : DB) (jobId : String)
    (f : TrainingJobRow → TrainingJobRow) (j : TrainingJobRow)
    (hf : ∀ a, (f a).jobId = a.jobId)
    (hj : get_training_job_by_id db jobId = some j) :
    get_training_job_by_id
        { db with trainingJobs := updateJob jobId f db.trainingJobs } jobId
      = some (f j) := by
  have hj2 : db.trainingJobs.find? (fun x => x.jobId == jobId) = some j := hj
  have hpj := List.find?_some hj2
  simp only at hpj
  have heq : j.jobId = jobId := by simpa using hpj
  unfold get_training_job_by_id updateJob
  simp only
  rw [find?_map_of_key _ _ _ (updateJob_key_pres jobId f hf), hj2]
  simp [heq]

lemma get_training_job_by_id_markRunning (db : DB) (t1 : Nat)
    (jobId : String) (j : TrainingJobRow)
    (hj : get_training_job_by_id db jobId = some j) :
    get_training_job_by_id (markRunning db t1 jobId) jobId
      = some { j with status := "running", startedAt := some t1 } := by
  unfold markRunning
  rw [hj]
  exact get_training_job_by_id_updateJob db jobId _ j (fun a => rfl) hj

lemma get_training_job_by_id_markFailed (db : DB) (t2 : Nat)
    (jobId : String) (msg : String) (j : TrainingJobRow)
    (hj : get_training_job_by_id db jobId = some j) :
    get_training_job_by_id (markFailed db t2 jobId msg) jobId
      = some { j with status := "failed", errorMessage := some msg,
                      completedAt := some t2 } := by
  unfold markFailed
  exact get_training_job_by_id_updateJob db jobId _ j (fun a => rfl) hj

lemma get_training_job_by_id_markCompleted (db : DB) (t2 : Nat)
    (jobId outDir : String) (metrics : JsonBlob) (j : TrainingJobRow)
    (hj : get_training_job_by_id db jobId = some j) :
    get_training_job_by_id (markCompleted db t2 jobId outDir metrics) jobId
      = some { j with status := "completed", completedAt := some t2,
                      metrics := some metrics, modelPath := some outDir,
                      progress := 100 } := by
  unfold markCompleted
  exact get_training_job_by_id_updateJob db jobId _ j (fun a => rfl) hj

/-- C2: when the background task raises (any exception message `msg`,
whether from the dataset read, data preparation, or the trainer), the
`except` branch records the failure: the job's row ends with
`status = 'failed'`, `error_message = msg` and `completed_at` set (the
`{ j with ... }` form fixes every other field to its value after the
status-to-running update), and the exception is re-raised with no retry —
the embedded task applies its body exactly once and its result carries
the re-raised message. -/
theorem failed_training_recorded (db : DB) (t1 t2 : Nat) (jobId : String)
    (userId : Nat) (cfg : TrainingConfig) (msg : String)
    (j : TrainingJobRow)
    (hj : get_training_job_by_id db jobId = some j) :
    get_training_job_by_id
        (run_training_task db t1 t2 jobId userId cfg (Except.error msg)).1
        jobId
      = some { j with status := "failed", startedAt := some t1,
                      errorMessage := some msg, completedAt := some t2 }
  ∧ (run_training_task db t1 t2 jobId userId cfg (Except.error msg)).2.2
      = some msg := by
  have h1 := get_training_job_by_id_markRunning db t1 jobId j hj
  have h2 := get_training_job_by_id_markFailed (markRunning db t1 jobId)
    t2 jobId msg _ h1
  simp only [run_training_task, h1]
  cases hu : get_user_by_id (markFailed (markRunning db t1 jobId) t2 jobId msg)
      userId with
  | none =>
    simp only [hu]
    exact ⟨h2, by simp⟩
  | some user =>
    simp only [hu]
    by_cases he : user.email = ""
    · rw [if_neg (not_not_intro he)]
      exact ⟨h2, by simp⟩
    · rw [if_pos he]
      exact ⟨h2, by simp⟩

/-- A concrete training configuration. -/
def sampleCfg : TrainingConfig :=
  { modelType := "bart", datasetId := 1, task := "summarization",
    name := none, description := none, epochs := 3, batchSize := 4,
    learningRate := "5e-5", maxLength := 1024, targetMaxLength := 256,
    languages := none }

/-- Witness for C2: a concrete failing run over `sampleJobDb`. -/
theorem failed_training_recorded_witness :
    get_training_job_by_id
        (run_training_task sampleJobDb 2 3 "uuid-1" 1 sampleCfg
          (Except.error "boom")).1 "uuid-1"
      = some { sampleRunningJob with status := "failed", startedAt := some 2,
                                     errorMessage := some "boom",
                                     completedAt := some 3 }
  ∧ (run_training_task sampleJobDb 2 3 "uuid-1" 1 sampleCfg
        (Except.error "boom")).2.2 = some "boom" :=
  failed_training_recorded sampleJobDb 2 3 "uuid-1" 1 sampleCfg "boom"
    sampleRunningJob (by decide)

/-! ## Claim C1 -/

lemma get_user_by_id_markRunning_eq (db : DB) (t1 : Nat) (jobId : String)
    (uid : Nat) :
    get_user_by_id (markRunning db t1 jobId) uid = get_user_by_id db uid := by
  unfold markRunning
  split <;> rfl

lemma get_user_by_id_markCompleted_eq (db : DB) (t2 : Nat)
    (jobId outDir : String) (metrics : JsonBlob) (uid : Nat) :
    get_user_by_id (markCompleted db t2 jobId outDir metrics) uid
      = get_user_by_id db uid := rfl

lemma get_user_by_id_create_user_model (db : DB) (data : UserModelCreate)
    (uid : Nat) :
    get_user_by_id (create_user_model db data).2 uid
      = get_user_by_id db uid := rfl

lemma get_training_job_by_id_create_user_model (db : DB)
    (data : UserModelCreate) (jobId : String) :
    get_training_job_by_id (create_user_model db data).2 jobId
      = get_training_job_by_id db jobId := rfl

lemma userModels_markRunning (db : DB) (t1 : Nat) (jobId : String) :
    (markRunning db t1 jobId).userModels = db.userModels := by
  unfold markRunning
  split <;> rfl

lemma users_markRunning (db : DB) (t1 : Nat) (jobId : String) :
    (markRunning db t1 jobId).users = db.users := by
  unfold markRunning
  split <;> rfl

lemma userModels_markCompleted (db : DB) (t2 : Nat) (jobId outDir : String)
    (metrics : JsonBlob) :
    (markCompleted db t2 jobId outDir metrics).userModels
      = db.userModels := rfl

lemma users_markCompleted (db : DB) (t2 : Nat) (jobId outDir : String)
    (metrics : JsonBlob) :
    (markCompleted db t2 jobId outDir metrics).users = db.users := rfl

/-- The success path of `run_training_task`: when the job exists, the
training call returns `metrics`, and the job's user exists with a
non-empty email, the job row is completed (status, completed_at, metrics,
model_path, progress = 100), exactly one `user_models` row is appended
for that user referencing the job and its dataset, the users table is
untouched, one `training_completed` email goes to the user's address, and
nothing is re-raised. -/
lemma run_training_task_success (db : DB) (t1 t2 : Nat) (jobId : String)
    (userId : Nat) (cfg : TrainingConfig) (metrics : JsonBlob)
    (j : TrainingJobRow) (user : UserRow)
    (hj : get_training_job_by_id db jobId = some j)
    (hu : get_user_by_id db userId = some user)
    (he : user.email ≠ "") :
    get_training_job_by_id
        (run_training_task db t1 t2 jobId userId cfg (Except.ok metrics)).1
        jobId
      = some { j with status := "completed", startedAt := some t1,
                      completedAt := some t2, metrics := some metrics,
                      modelPath := some (outputDirFor cfg jobId),
                      progress := 100 }
  ∧ (run_training_task db t1 t2 jobId userId cfg (Except.ok metrics)).1.userModels
      = db.userModels ++
        [{ id := nextId (db.userModels.map (fun x => x.id))
           userId := userId
           name := j.name
           description := j.description
           modelType := cfg.modelType
           task := cfg.task
           modelPath := outputDirFor cfg jobId
           trainingJobId := j.id
           datasetId := j.datasetId
           metadataInfo := { epochs := cfg.epochs, batchSize := cfg.batchSize,
                             learningRate := cfg.learningRate,
                             metrics := metrics } }]
  ∧ (run_training_task db t1 t2 jobId userId cfg (Except.ok metrics)).1.users
      = db.users
  ∧ (run_training_task db t1 t2 jobId userId cfg (Except.ok metrics)).2.1
      = [{ toEmail := user.email, username := user.username,
           notificationType := "training_completed", jobId := jobId,
           modelName := some j.name, metrics := some metrics,
           errorText := none }]
  ∧ (run_training_task db t1 t2 jobId userId cfg (Except.ok metrics)).2.2
      = none := by
  have h1 := get_training_job_by_id_markRunning db t1 jobId j hj
  have h2 := get_training_job_by_id_markCompleted (markRunning db t1 jobId)
    t2 jobId (outputDirFor cfg jobId) metrics _ h1
  simp only [run_training_task, h1, get_user_by_id_create_user_model,
    get_user_by_id_markCompleted_eq, get_user_by_id_markRunning_eq, hu]
  rw [if_pos he]
  refine ⟨?_, ?_, ?_, ?_, ?_⟩
  · rw [get_training_job_by_id_create_user_model]
    exact h2
  · show (markCompleted (markRunning db t1 jobId) t2 jobId
        (outputDirFor cfg jobId) metrics).userModels ++ _
      = db.userModels ++ _
    rw [userModels_markCompleted, userModels_markRunning]
  · show (markCompleted (markRunning db t1 jobId) t2 jobId
        (outputDirFor cfg jobId) metrics).users = db.users
    rw [users_markCompleted, users_markRunning]
  · rfl
  · rfl

/-- The `pending` job row inserted by `start_training`. -/
def startedJobRow (db : DB) (now : Nat) (nowStr : String) (user : UserRow)
    (cfg : TrainingConfig) (jobId : String) : TrainingJobRow :=
  (create_training_job db now (startPayload user cfg jobId nowStr)).1

lemma get_training_job_by_id_create_fresh (db : DB) (now : Nat)
    (data : TrainingJobCreate)
    (hfresh : get_training_job_by_id db data.jobId = none) :
    get_training_job_by_id (create_training_job db now data).2 data.jobId
      = some (create_training_job db now data).1 := by
  have hfresh2 : db.trainingJobs.find? (fun x => x.jobId == data.jobId)
      = none := hfresh
  unfold create_training_job get_training_job_by_id
  simp only
  rw [find?_append_none _ _ _ hfresh2]
  simp [List.find?]

lemma get_user_by_id_create_training_job (db : DB) (now : Nat)
    (data : TrainingJobCreate) (uid : Nat) :
    get_user_by_id (create_training_job db now data).2 uid
      = get_user_by_id db uid := rfl

/-- C1: a training job started through `POST /api/training/start` whose
background task completes without an exception runs the whole lifecycle:
the route inserts the `pending` job row for the caller and enqueues the
task; the task sets the job to `completed` with `completed_at`, `metrics`,
`model_path` and `progress = 100` persisted, registers exactly one
`UserModel` row for the same user referencing the job (`training_job_id`)
and its dataset (`dataset_id`), and sends one `training_completed`
notification email to the user's address — in the order the composed
`training_flow` fixes (creation, execution, persistence, registration,
notification).  `jobId` is the fresh UUID (no job row carries it yet). -/
theorem training_completion_lifecycle (db : DB) (now t1 t2 : Nat)
    (nowStr : String) (user : UserRow) (cfg : TrainingConfig)
    (jobId : String) (metrics : JsonBlob) (ds : UserDatasetRow)
    (hds : get_user_dataset db cfg.datasetId user.id = some ds)
    (hfresh : get_training_job_by_id db jobId = none)
    (huser : get_user_by_id db user.id = some user)
    (hemail : user.email ≠ "") :
    (training_flow db now nowStr t1 t2 user cfg jobId (Except.ok metrics)).1
      = RouteResult.ok (startedJobRow db now nowStr user cfg jobId)
  ∧ (startedJobRow db now nowStr user cfg jobId).status = "pending"
  ∧ (startedJobRow db now nowStr user cfg jobId).userId = user.id
  ∧ get_training_job_by_id
        (training_flow db now nowStr t1 t2 user cfg jobId (Except.ok metrics)).2.1
        jobId
      = some { startedJobRow db now nowStr user cfg jobId with
               status := "completed", startedAt := some t1,
               completedAt := some t2, metrics := some metrics,
               modelPath := some (outputDirFor cfg jobId), progress := 100 }
  ∧ (training_flow db now nowStr t1 t2 user cfg jobId (Except.ok metrics)).2.1.userModels
      = db.userModels ++
        [{ id := nextId (db.userModels.map (fun x => x.id))
           userId := user.id
           name := defaultJobName cfg nowStr
           description := cfg.description
           modelType := cfg.modelType
           task := cfg.task
           modelPath := outputDirFor cfg jobId
           trainingJobId := (startedJobRow db now nowStr user cfg jobId).id
           datasetId := cfg.datasetId
           metadataInfo := { epochs := cfg.epochs, batchSize := cfg.batchSize,
                             learningRate := cfg.learningRate,
                             metrics := metrics } }]
  ∧ (training_flow db now nowStr t1 t2 user cfg jobId (Except.ok metrics)).2.2
      = [{ toEmail := user.email, username := user.username,
           notificationType := "training_completed", jobId := jobId,
           modelName := some (defaultJobName cfg nowStr),
           metrics := some metrics, errorText := none }] := by
  have hstart : start_training db now nowStr user cfg jobId
      = (RouteResult.ok (startedJobRow db now nowStr user cfg jobId),
         (create_training_job db now (startPayload user cfg jobId nowStr)).2,
         some { jobId := jobId, userId := user.id, cfg := cfg,
                datasetPath := ds.filePath }) := by
    unfold start_training
    rw [hds]
    rfl
  have hj1 : get_training_job_by_id
      (create_training_job db now (startPayload user cfg jobId nowStr)).2
      jobId = some (startedJobRow db now nowStr user cfg jobId) :=
    get_training_job_by_id_create_fresh db now
      (startPayload user cfg jobId nowStr) hfresh
  have hu1 : get_user_by_id
      (create_training_job db now (startPayload user cfg jobId nowStr)).2
      user.id = some user := by
    rw [get_user_by_id_create_training_job]
    exact huser
  have hrun := run_training_task_success
    (create_training_job db now (startPayload user cfg jobId nowStr)).2
    t1 t2 jobId user.id cfg metrics
    (startedJobRow db now nowStr user cfg jobId) user hj1 hu1 hemail
  simp only [training_flow, hstart]
  refine ⟨?_, ?_, ?_, hrun.1, hrun.2.1, hrun.2.2.2.1⟩ <;> trivial

/-- A concrete dataset owned by `sampleUser`. -/
def sampleDataset : UserDatasetRow :=
  { id := 1, userId := 1, name := "legal", filePath := "data/d.json" }

/-- Database holding `sampleUser` and `sampleDataset`, no jobs yet. -/
def sampleStartDb : DB :=
  { emptyDB with users := [sampleUser], userDatasets := [sampleDataset] }

/-- Witness for C1: one full successful lifecycle over `sampleStartDb`. -/
theorem training_completion_lifecycle_witness :
    (training_flow sampleStartDb 10 "20260101" 11 12 sampleUser sampleCfg
        "uuid-9" (Except.ok [("rouge1", "0.5")])).1
      = RouteResult.ok
          (startedJobRow sampleStartDb 10 "20260101" sampleUser sampleCfg
            "uuid-9")
  ∧ get_training_job_by_id
        (training_flow sampleStartDb 10 "20260101" 11 12 sampleUser sampleCfg
          "uuid-9" (Except.ok [("rouge1", "0.5")])).2.1 "uuid-9"
      = some { startedJobRow sampleStartDb 10 "20260101" sampleUser sampleCfg
                 "uuid-9" with
               status := "completed", startedAt := some 11,
               completedAt := some 12, metrics := some [("rouge1", "0.5")],
               modelPath := some (outputDirFor sampleCfg "uuid-9"),
               progress := 100 }
  ∧ (training_flow sampleStartDb 10 "20260101" 11 12 sampleUser sampleCfg
        "uuid-9" (Except.ok [("rouge1", "0.5")])).2.2
      = [{ toEmail := "ada@example.com", username := "ada",
           notificationType := "training_completed", jobId := "uuid-9",
           modelName := some (defaultJobName sampleCfg "20260101"),
           metrics := some [("rouge1", "0.5")], errorText := none }] := by
  have h := training_completion_lifecycle sampleStartDb 10 11 12 "20260101"
    sampleUser sampleCfg "uuid-9" [("rouge1", "0.5")] sampleDataset
    (by decide) (by decide) (by decide) (by decide)
  exact ⟨h.1, h.2.2.2.1, h.2.2.2.2.2⟩

/-! ## Claim C10 -/

/-- The stored row for this token string exists and is revoked. -/
def tokenRevokedIn (db : DB) (token : String) : Bool :=
  match get_refresh_token db token with
  | none => false
  | some r => r.isRevoked

lemma tokenRevokedIn_eq_of_rt (db db' : DB) (t : String)
    (h : db'.refreshTokens = db.refreshTokens) :
    tokenRevokedIn db' t = tokenRevokedIn db t := by
  unfold tokenRevokedIn get_refresh_token
  rw [h]

lemma tokenRevokedIn_append (db : DB) (t : String)
    (rows : List RefreshTokenRow) (h : tokenRevokedIn db t = true) :
    tokenRevokedIn { db with refreshTokens := db.refreshTokens ++ rows } t
      = true := by
  unfold tokenRevokedIn get_refresh_token at *
  cases hr : db.refreshTokens.find? (fun x => x.token == t) with
  | none => rw [hr] at h; simp at h
  | some r =>
    rw [hr] at h
    simp only at h
    simp only
    rw [find?_append_some _ _ _ _ hr]
    exact h

lemma tokenRevokedIn_mapped (db : DB) (t : String)
    (f : RefreshTokenRow → RefreshTokenRow)
    (htok : ∀ r, (f r).token = r.token)
    (hrev : ∀ r, r.isRevoked = true → (f r).isRevoked = true)
    (h : tokenRevokedIn db t = true) :
    tokenRevokedIn { db with refreshTokens := db.refreshTokens.map f } t
      = true := by
  have hp : ∀ a : RefreshTokenRow, ((f a).token == t) = (a.token == t) := by
    intro a
    rw [htok a]
  unfold tokenRevokedIn get_refresh_token at *
  cases hr : db.refreshTokens.find? (fun x => x.token == t) with
  | none => rw [hr] at h; simp at h
  | some r =>
    rw [hr] at h
    simp only at h
    simp only
    rw [find?_map_of_key _ _ _ hp, hr]
    simp only [Option.map_some']
    exact hrev r h

lemma setRevokedIfToken_token (t' : String) (r : RefreshTokenRow) :
    (setRevokedIfToken t' r).token = r.token := by
  unfold setRevokedIfToken
  split <;> rfl

lemma setRevokedIfToken_rev (t' : String) (r : RefreshTokenRow)
    (h : r.isRevoked = true) : (setRevokedIfToken t' r).isRevoked = true := by
  unfold setRevokedIfToken
  split <;> simp [h]

lemma setRevokedIfUser_token (uid : Nat) (r : RefreshTokenRow) :
    (setRevokedIfUser uid r).token = r.token := by
  unfold setRevokedIfUser
  split <;> rfl

lemma setRevokedIfUser_rev (uid : Nat) (r : RefreshTokenRow)
    (h : r.isRevoked = true) : (setRevokedIfUser uid r).isRevoked = true := by
  unfold setRevokedIfUser
  split <;> simp [h]

lemma tokenRevokedIn_revoke (db : DB) (t t' : String)
    (h : tokenRevokedIn db t = true) :
    tokenRevokedIn (revoke_refresh_token db t').2 t = true := by
  unfold revoke_refresh_token
  cases hr : get_refresh_token db t' with
  | none => exact h
  | some r =>
    exact tokenRevokedIn_mapped db t (setRevokedIfToken t')
      (setRevokedIfToken_token t') (setRevokedIfToken_rev t') h

lemma tokenRevokedIn_revoke_all (db : DB) (t : String) (uid : Nat)
    (h : tokenRevokedIn db t = true) :
    tokenRevokedIn (revoke_all_user_refresh_tokens db uid).2 t = true :=
  tokenRevokedIn_mapped db t (setRevokedIfUser uid)
    (setRevokedIfUser_token uid) (setRevokedIfUser_rev uid) h

lemma tokenRevokedIn_create_tokens (env : AuthEnv) (db : DB) (now : Nat)
    (user : UserRow) (t : String) (h : tokenRevokedIn db t = true) :
    tokenRevokedIn (create_tokens_for_user env db now user).2 t = true := by
  unfold create_tokens_for_user create_refresh_token
  simp only
  exact tokenRevokedIn_append db t _ h

lemma tokenRevokedIn_after_revoke (db : DB) (t : String)
    (r : RefreshTokenRow) (hr : get_refresh_token db t = some r) :
    tokenRevokedIn (revoke_refresh_token db t).2 t = true := by
  have hr2 : db.refreshTokens.find? (fun x => x.token == t) = some r := hr
  have hpr := List.find?_some hr2
  simp only at hpr
  have hp : ∀ a : RefreshTokenRow,
      ((setRevokedIfToken t a).token == t) = (a.token == t) := by
    intro a
    rw [setRevokedIfToken_token]
  unfold revoke_refresh_token
  rw [hr]
  unfold tokenRevokedIn get_refresh_token
  simp only
  rw [find?_map_of_key _ _ _ hp, hr2]
  simp only [Option.map_some']
  unfold setRevokedIfToken
  rw [if_pos hpr]

lemma stored_row_of_current_user (env : AuthEnv) (db : DB) (t : String)
    (user : UserRow)
    (h : get_current_user_from_refresh_token env db t = some user) :
    ∃ r, get_refresh_token db t = some r := by
  unfold get_current_user_from_refresh_token at h
  cases hv : env.verifyRefresh t with
  | none => rw [hv] at h; exact absurd h (by simp)
  | some uid =>
    rw [hv] at h
    cases hr : get_refresh_token db t with
    | none => rw [hr] at h; exact absurd h (by simp)
    | some r => exact ⟨r, rfl⟩

/-- Every state-changing operation embedded in this development, as one
step relation over database states. -/
inductive AuthOp where
  | registerOp (env : AuthEnv) (now : Nat) (vtok : String) (u : UserCreate)
  | loginOp (env : AuthEnv) (now : Nat) (usernameOrEmail password : String)
  | refreshOp (env : AuthEnv) (now : Nat) (token : String)
  | logoutOp (token : String)
  | logoutAllOp (userId : Nat)
  | changePasswordOp (env : AuthEnv) (now : Nat) (userId : Nat)
      (currentPassword newPassword : String)
  | deleteUserOp (now : Nat) (userId : Nat)
  | createApiKeyOp (now : Nat) (userId : Nat) (name key secret : String)
      (scopes : List String) (rateLimit : Nat)
  | revokeApiKeyOp (apiKeyId userId : Nat)
  | apiKeyAuthOp (now : Nat) (apiKey : Option String)
  | startTrainingOp (now : Nat) (nowStr : String) (user : UserRow)
      (cfg : TrainingConfig) (jobId : String)
  | runTrainingOp (t1 t2 : Nat) (jobId : String) (userId : Nat)
      (cfg : TrainingConfig) (outcome : Except String JsonBlob)
  | cancelJobOp (now : Nat) (userId : Nat) (jobId : String)

/-- The database state after one operation. -/
def applyAuthOp (db : DB) (op : AuthOp) : DB :=
  match op with
  | AuthOp.registerOp env now vtok u => (register env db now vtok u).2
  | AuthOp.loginOp env now ue pw => (login env db now ue pw).2
  | AuthOp.refreshOp env now t => (refresh_route env db now t).2
  | AuthOp.logoutOp t => (logout db t).2
  | AuthOp.logoutAllOp uid => (logout_all db uid).2
  | AuthOp.changePasswordOp env now uid c n =>
      (change_password_route env db now uid c n).2
  | AuthOp.deleteUserOp now uid => (delete_user db now uid).2
  | AuthOp.createApiKeyOp now uid n k s sc rl =>
      (create_api_key db now uid n k s sc rl).2
  | AuthOp.revokeApiKeyOp akid uid => (revoke_api_key db akid uid).2
  | AuthOp.apiKeyAuthOp now k => (api_key_auth db now k).2
  | AuthOp.startTrainingOp now ns user cfg jid =>
      (start_training db now ns user cfg jid).2.1
  | AuthOp.runTrainingOp t1 t2 jid uid cfg o =>
      (run_training_task db t1 t2 jid uid cfg o).1
  | AuthOp.cancelJobOp now uid jid => (cancel_training_job db now uid jid).2

lemma refreshTokens_create_user (db : DB) (now : Nat)
    (hash : String → String) (u : UserCreate) (v : UserRow) (db1 : DB)
    (h : create_user db now hash u = Except.ok (v, db1)) :
    db1.refreshTokens = db.refreshTokens := by
  unfold create_user at h
  split at h
  · exact absurd h (by simp)
  · split at h
    · exact absurd h (by simp)
    · simp only [Except.ok.injEq, Prod.mk.injEq] at h
      rw [← h.2]

lemma refreshTokens_register (env : AuthEnv) (db : DB) (now : Nat)
    (vtok : String) (u : UserCreate) :
    (register env db now vtok u).2.refreshTokens = db.refreshTokens := by
  unfold register
  cases h : create_user db now env.hashPassword u with
  | error msg => rfl
  | ok p =>
    simp only
    have := refreshTokens_create_user db now env.hashPassword u p.1 p.2
      (by rw [h])
    unfold create_email_verification_token
    simp only
    exact this

lemma refreshTokens_update_user_last_login (db : DB) (now uid : Nat) :
    (update_user_last_login db now uid).refreshTokens = db.refreshTokens := by
  unfold update_user_last_login
  split <;> rfl

lemma refreshTokens_change_user_password (db : DB) (now : Nat)
    (hash : String → String) (uid : Nat) (pw : String) :
    (change_user_password db now hash uid pw).2.refreshTokens
      = db.refreshTokens := by
  unfold change_user_password
  split <;> rfl

lemma refreshTokens_update_api_key_last_used (db : DB) (now akid : Nat) :
    (update_api_key_last_used db now akid).refreshTokens
      = db.refreshTokens := by
  unfold update_api_key_last_used
  split <;> rfl

lemma refreshTokens_api_key_auth (db : DB) (now : Nat) (k : Option String) :
    (api_key_auth db now k).2.refreshTokens = db.refreshTokens := by
  unfold api_key_auth
  cases k with
  | none => rfl
  | some key =>
    cases hk : get_api_key_by_key db key with
    | none => simp only [hk]
    | some dbKey =>
      simp only [hk]
      cases he : dbKey.expiresAt with
      | none =>
        simp only
        split
        · rfl
        · split
          · exact refreshTokens_update_api_key_last_used db now dbKey.id
          · rfl
      | some exp =>
        simp only
        split
        · split
          · rfl
          · split
            · rfl
            · split
              · exact refreshTokens_update_api_key_last_used db now dbKey.id
              · rfl
        · rfl

lemma refreshTokens_markRunning (db : DB) (t1 : Nat) (jobId : String) :
    (markRunning db t1 jobId).refreshTokens = db.refreshTokens := by
  unfold markRunning
  split <;> rfl

lemma refreshTokens_run_training_task (db : DB) (t1 t2 : Nat)
    (jobId : String) (uid : Nat) (cfg : TrainingConfig)
    (o : Except String JsonBlob) :
    (run_training_task db t1 t2 jobId uid cfg o).1.refreshTokens
      = db.refreshTokens := by
  have hmr := refreshTokens_markRunning db t1 jobId
  unfold run_training_task
  cases o with
  | error msg =>
    simp only
    split
    · exact hmr
    · split
      · exact hmr
      · split
        · exact hmr
        · exact hmr
  | ok metrics =>
    simp only
    split
    · exact hmr
    · split
      · exact hmr
      · split
        · exact hmr
        · exact hmr

lemma refreshTokens_start_training (db : DB) (now : Nat) (nowStr : String)
    (user : UserRow) (cfg : TrainingConfig) (jobId : String) :
    (start_training db now nowStr user cfg jobId).2.1.refreshTokens
      = db.refreshTokens := by
  unfold start_training
  split <;> rfl

lemma refreshTokens_cancel_training_job (db : DB) (now uid : Nat)
    (jobId : String) :
    (cancel_training_job db now uid jobId).2.refreshTokens
      = db.refreshTokens := by
  unfold cancel_training_job
  split
  · rfl
  · split <;> rfl

lemma refreshTokens_delete_user (db : DB) (now uid : Nat) :
    (delete_user db now uid).2.refreshTokens = db.refreshTokens := by
  unfold delete_user
  split <;> rfl

lemma refreshTokens_create_api_key (db : DB) (now uid : Nat)
    (n k s : String) (sc : List String) (rl : Nat) :
    (create_api_key db now uid n k s sc rl).2.refreshTokens
      = db.refreshTokens := rfl

lemma refreshTokens_revoke_api_key (db : DB) (akid uid : Nat) :
    (revoke_api_key db akid uid).2.refreshTokens = db.refreshTokens := by
  unfold revoke_api_key
  split <;> rfl

/-- Once a token's stored row is revoked, no embedded operation un-revokes
it: inserts append (so the original row is still found first), revocations
only set more `is_revoked` flags, and every other operation leaves the
`refresh_tokens` table untouched. -/
lemma tokenRevokedIn_applyAuthOp (db : DB) (t : String) (op : AuthOp)
    (h : tokenRevokedIn db t = true) :
    tokenRevokedIn (applyAuthOp db op) t = true := by
  cases op with
  | registerOp env now vtok u =>
    show tokenRevokedIn (register env db now vtok u).2 t = true
    rw [tokenRevokedIn_eq_of_rt db _ t (refreshTokens_register env db now vtok u)]
    exact h
  | loginOp env now ue pw =>
    show tokenRevokedIn (login env db now ue pw).2 t = true
    unfold login
    split
    · exact h
    · split
      · exact h
      · split
        · exact h
        · refine tokenRevokedIn_create_tokens env _ now _ t ?_
          rw [tokenRevokedIn_eq_of_rt db _ t
            (refreshTokens_update_user_last_login db now _)]
          exact h
  | refreshOp env now tk =>
    show tokenRevokedIn (refresh_route env db now tk).2 t = true
    unfold refresh_route
    split
    · exact h
    · exact tokenRevokedIn_create_tokens env _ now _ t
        (tokenRevokedIn_revoke db t tk h)
  | logoutOp tk =>
    show tokenRevokedIn (logout db tk).2 t = true
    unfold logout
    split
    · exact tokenRevokedIn_revoke db t tk h
    · exact tokenRevokedIn_revoke db t tk h
  | logoutAllOp uid =>
    show tokenRevokedIn (logout_all db uid).2 t = true
    exact tokenRevokedIn_revoke_all db t uid h
  | changePasswordOp env now uid c n =>
    show tokenRevokedIn (change_password_route env db now uid c n).2 t = true
    unfold change_password_route
    split
    · exact h
    · split
      · refine tokenRevokedIn_revoke_all _ t uid ?_
        rw [tokenRevokedIn_eq_of_rt db _ t
          (refreshTokens_change_user_password db now env.hashPassword uid n)]
        exact h
      · rw [tokenRevokedIn_eq_of_rt db _ t
          (refreshTokens_change_user_password db now env.hashPassword uid n)]
        exact h
  | deleteUserOp now uid =>
    show tokenRevokedIn (delete_user db now uid).2 t = true
    rw [tokenRevokedIn_eq_of_rt db _ t (refreshTokens_delete_user db now uid)]
    exact h
  | createApiKeyOp now uid n k s sc rl =>
    show tokenRevokedIn (create_api_key db now uid n k s sc rl).2 t = true
    rw [tokenRevokedIn_eq_of_rt db _ t
      (refreshTokens_create_api_key db now uid n k s sc rl)]
    exact h
  | revokeApiKeyOp akid uid =>
    show tokenRevokedIn (revoke_api_key db akid uid).2 t = true
    rw [tokenRevokedIn_eq_of_rt db _ t (refreshTokens_revoke_api_key db akid uid)]
    exact h
  | apiKeyAuthOp now k =>
    show tokenRevokedIn (api_key_auth db now k).2 t = true
    rw [tokenRevokedIn_eq_of_rt db _ t (refreshTokens_api_key_auth db now k)]
    exact h
  | startTrainingOp now ns user cfg jid =>
    show tokenRevokedIn (start_training db now ns user cfg jid).2.1 t = true
    rw [tokenRevokedIn_eq_of_rt db _ t
      (refreshTokens_start_training db now ns user cfg jid)]
    exact h
  | runTrainingOp t1 t2 jid uid cfg o =>
    show tokenRevokedIn (run_training_task db t1 t2 jid uid cfg o).1 t = true
    rw [tokenRevokedIn_eq_of_rt db _ t
      (refreshTokens_run_training_task db t1 t2 jid uid cfg o)]
    exact h
  | cancelJobOp now uid jid =>
    show tokenRevokedIn (cancel_training_job db now uid jid).2 t = true
    rw [tokenRevokedIn_eq_of_rt db _ t
      (refreshTokens_cancel_training_job db now uid jid)]
    exact h

/-- C10: refresh tokens are single-use.  (i) Whenever
`POST /api/auth/refresh` succeeds with token `t`, the resulting state
holds `t`'s row with `is_revoked = True` (the revocation commit precedes
the new token pair's return); (ii) every embedded operation preserves
revokedness, so it holds in every subsequent state; (iii) in any state
where `t`'s row is revoked, presenting `t` to `/refresh` again is
rejected with HTTP 401 and the state is unchanged. -/
theorem refresh_token_single_use :
    (∀ env db now t pair db2,
        refresh_route env db now t = (RouteResult.ok pair, db2) →
        tokenRevokedIn db2 t = true)
  ∧ (∀ db t op, tokenRevokedIn db t = true →
        tokenRevokedIn (applyAuthOp db op) t = true)
  ∧ (∀ env db now t, tokenRevokedIn db t = true →
        refresh_route env db now t
          = (RouteResult.error 401 "Invalid refresh token", db)) := by
  refine ⟨?_, ?_, ?_⟩
  · intro env db now t pair db2 heq
    unfold refresh_route at heq
    cases hg : get_current_user_from_refresh_token env db t with
    | none =>
      rw [hg] at heq
      exact absurd heq (by simp)
    | some user =>
      rw [hg] at heq
      obtain ⟨r, hr⟩ := stored_row_of_current_user env db t user hg
      have hdb2 : db2
          = (create_tokens_for_user env (revoke_refresh_token db t).2
              now user).2 := by
        have hsnd := congrArg Prod.snd heq
        simpa using hsnd.symm
      rw [hdb2]
      exact tokenRevokedIn_create_tokens env _ now user t
        (tokenRevokedIn_after_revoke db t r hr)
  · exact fun db t op h => tokenRevokedIn_applyAuthOp db t op h
  · intro env db now t h
    apply refresh_route_rejects
    unfold tokenRevokedOrAbsent
    unfold tokenRevokedIn at h
    cases hr : get_refresh_token db t with
    | none => rfl
    | some r =>
      rw [hr] at h
      simpa using h

/-- A concrete live (unrevoked) refresh-token row for `sampleUser`. -/
def sampleLiveToken : RefreshTokenRow :=
  { id := 1, userId := 1, token := "live", expiresAt := 1000,
    isRevoked := false, createdAt := 0 }

/-- Database holding `sampleUser` and the live token. -/
def sampleLiveDb : DB :=
  { emptyDB with users := [sampleUser], refreshTokens := [sampleLiveToken] }

/-- Witness for C10: a successful refresh revokes the presented token; an
unrelated logout preserves revokedness; a revoked token is rejected. -/
theorem refresh_token_single_use_witness :
    tokenRevokedIn (refresh_route sampleEnv sampleLiveDb 5 "live").2 "live"
      = true
  ∧ tokenRevokedIn
      (applyAuthOp sampleRevokedDb (AuthOp.logoutOp "other")) "tok" = true
  ∧ refresh_route sampleEnv sampleRevokedDb 5 "tok"
      = (RouteResult.error 401 "Invalid refresh token", sampleRevokedDb) :=
  ⟨refresh_token_single_use.1 sampleEnv sampleLiveDb 5 "live"
     { accessToken := "access-jwt", refreshToken := "refresh-jwt",
       tokenType := "bearer", expiresIn := 1800 }
     (refresh_route sampleEnv sampleLiveDb 5 "live").2 (by decide),
   refresh_token_single_use.2.1 sampleRevokedDb "tok"
     (AuthOp.logoutOp "other") (by decide),
   refresh_token_single_use.2.2 sampleEnv sampleRevokedDb 5 "tok"
     (by decide)⟩

end Lexicognize
